import Mathlib

/-!
Verification development for the registro_servicios_chile repository.

The repository contains two domain models of a household service bill
(Generation A in models.py / database.py, Generation B in the layered
src/ tree), their persistence layers, use cases, a notification service
and two AI services.  This file gives a shallow embedding of the parts
of that code that the specification claims talk about, and proves or
refutes each claim.

Modelling conventions, used throughout:
  * Python float amounts are modelled as rationals; every arithmetic
    operation appearing in the embedded code (sums, differences,
    products, comparisons, divisions by nonzero constants) is exact on
    the inputs the claims use, so no floating-point rounding is
    relevant to any claim.
  * Python datetime values are modelled by PyDateTime below: a linear
    instant t in microseconds from an arbitrary epoch aligned to
    midnight, plus the calendar month of the instant.  Ordering,
    subtraction (timedelta .days, which floors towards minus
    infinity), date() comparison and whole-day shifts are functions of
    t alone; the month field is carried separately because deriving a
    calendar month from t would duplicate calendar arithmetic that no
    claim depends on (no claim relates the month of an instant to its
    position in the linear order).
  * datetime.isoformat / datetime.fromisoformat are mutually inverse
    on the values the code produces, so the ISO-8601 string channel of
    a serialized date is modelled by the PyDateTime value itself; a
    JSON null in that channel is Option.none.
  * Python str is modelled by Lean String (a list of unicode
    characters); str.lower is a per-character toLower, str.strip trims
    the same whitespace characters Lean trims, and the substring test
    x in y is infix of the character lists.
-/

/-- Model of a Python datetime instant: microseconds from an epoch
midnight, plus the calendar month (1..12) of the instant. -/
structure PyDateTime where
  t : Int
  month : Nat
deriving DecidableEq, Repr

namespace PyDateTime

/-- Microseconds in one day. -/
def microsPerDay : Int := 86400000000

/-- Python datetime comparison a < b. -/
def lt (a b : PyDateTime) : Prop := a.t < b.t

/-- Python datetime comparison a <= b. -/
def le (a b : PyDateTime) : Prop := a.t ≤ b.t

instance : DecidablePred (fun p : PyDateTime × PyDateTime => lt p.1 p.2) :=
  fun p => inferInstanceAs (Decidable (p.1.t < p.2.t))

instance (a b : PyDateTime) : Decidable (lt a b) :=
  inferInstanceAs (Decidable (a.t < b.t))

instance (a b : PyDateTime) : Decidable (le a b) :=
  inferInstanceAs (Decidable (a.t ≤ b.t))

/-- (a - b).days of the Python timedelta a - b: the number of whole
days, floored towards minus infinity (Python normalizes timedelta so
that .days is the floor of the total duration in days). -/
def deltaDays (a b : PyDateTime) : Int := (a.t - b.t).fdiv microsPerDay

/-- a.date() as a day number: the calendar day containing the instant
(the epoch is aligned to midnight, so this is the floor of t in days).
Two instants are on the same calendar day iff their dateOf agree, and
(d1.date() - d2.date()).days is dateOf d1 - dateOf d2. -/
def dateOf (a : PyDateTime) : Int := a.t.fdiv microsPerDay

/-- a + timedelta(days = n).  The shifted instant keeps the month
field unchanged: no embedded code reads the month of a shifted
instant (shifts are only compared, and comparison reads t alone). -/
def addDays (a : PyDateTime) (n : Int) : PyDateTime :=
  { a with t := a.t + n * microsPerDay }

end PyDateTime

/-- The whitespace characters removed by Python str.strip at either
end of a string (space, tab, newline, carriage return, vertical tab,
form feed). -/
def pyIsSpace (c : Char) : Bool :=
  c = Char.ofNat 32 || c = Char.ofNat 9 || c = Char.ofNat 10 ||
  c = Char.ofNat 13 || c = Char.ofNat 11 || c = Char.ofNat 12

/-- Python str.strip(): drop leading and trailing whitespace
characters. -/
def pyStrip (s : String) : String :=
  String.mk (((s.data.dropWhile pyIsSpace).reverse.dropWhile pyIsSpace).reverse)

/-! ## Generation A domain model (src/models.py) -/

namespace GenA

/-- TipoServicio enum of models.py (7 values). -/
inductive TipoServicio where
  | LUZ | AGUA | GAS | INTERNET | TELEFONO | GASTOS_COMUNES | OTRO
deriving DecidableEq, Repr

/-- The .value string of each TipoServicio member. -/
def TipoServicio.value : TipoServicio → String
  | .LUZ => "Luz"
  | .AGUA => "Agua"
  | .GAS => "Gas"
  | .INTERNET => "Internet"
  | .TELEFONO => "Teléfono"
  | .GASTOS_COMUNES => "Gastos Comunes"
  | .OTRO => "Otro"

/-- TipoServicio(value): the enum-by-value lookup, None models the
ValueError raised on an unknown value. -/
def TipoServicio.fromValue (s : String) : Option TipoServicio :=
  if s = "Luz" then some .LUZ
  else if s = "Agua" then some .AGUA
  else if s = "Gas" then some .GAS
  else if s = "Internet" then some .INTERNET
  else if s = "Teléfono" then some .TELEFONO
  else if s = "Gastos Comunes" then some .GASTOS_COMUNES
  else if s = "Otro" then some .OTRO
  else none

/-- EstadoCuenta enum of models.py. -/
inductive EstadoCuenta where
  | PENDIENTE | PAGADO | VENCIDO | EN_RIESGO_CORTE
deriving DecidableEq, Repr

/-- The CuentaServicio dataclass of models.py.  fecha_emision,
created_at and updated_at are optional in the dataclass but
__post_init__ replaces a missing value with datetime.now() at
construction, so they are modelled as always present.
fecha_vencimiento has default None and is NOT defaulted by
__post_init__, so it stays optional. -/
structure CuentaServicio where
  id : Option String := none
  tipo_servicio : TipoServicio := .LUZ
  descripcion : String := ""
  monto : Rat := 0
  fecha_emision : PyDateTime
  fecha_vencimiento : Option PyDateTime := none
  fecha_corte : Option PyDateTime := none
  fecha_lectura_proxima : Option PyDateTime := none
  pagado : Bool := false
  fecha_pago : Option PyDateTime := none
  observaciones : String := ""
  created_at : PyDateTime
  updated_at : PyDateTime
deriving DecidableEq, Repr

/-- CuentaServicio.get_estado of models.py, with datetime.now() passed
explicitly.  Returns none when the unpaid path compares now against a
missing fecha_vencimiento (Python raises TypeError there). -/
def get_estado (c : CuentaServicio) (now : PyDateTime) : Option EstadoCuenta :=
  if c.pagado then
    some .PAGADO
  else
    match c.fecha_vencimiento with
    | none => none
    | some venc =>
      if PyDateTime.lt venc now then
        some .VENCIDO
      else
        match c.fecha_corte with
        | some corte =>
          if PyDateTime.le corte now then some .EN_RIESGO_CORTE
          else some .PENDIENTE
        | none => some .PENDIENTE

/-- CuentaServicio.marcar_como_pagado of models.py: unguarded; sets
the paid flag, sets fecha_pago to the argument or now, and stamps
updated_at, on every call. -/
def marcar_como_pagado (c : CuentaServicio) (fecha_pago : Option PyDateTime)
    (now : PyDateTime) : CuentaServicio :=
  { c with
    pagado := true
    fecha_pago := some (fecha_pago.getD now)
    updated_at := now }

/-- The dictionary shape produced by CuentaServicio.to_dict (and
stored in data/cuentas.json).  Each date field carries the ISO-8601
channel modelled as the PyDateTime value (see the module header);
fecha_lectura_proxima is absent from to_dict. -/
structure RecordA where
  id : Option String
  tipo_servicio : String
  descripcion : String
  monto : Rat
  fecha_emision : Option PyDateTime
  fecha_vencimiento : Option PyDateTime
  fecha_corte : Option PyDateTime
  pagado : Bool
  fecha_pago : Option PyDateTime
  observaciones : String
  created_at : Option PyDateTime
  updated_at : Option PyDateTime
deriving DecidableEq, Repr

/-- CuentaServicio.to_dict of models.py. -/
def to_dict (c : CuentaServicio) : RecordA :=
  { id := c.id
    tipo_servicio := c.tipo_servicio.value
    descripcion := c.descripcion
    monto := c.monto
    fecha_emision := some c.fecha_emision
    fecha_vencimiento := c.fecha_vencimiento
    fecha_corte := c.fecha_corte
    pagado := c.pagado
    fecha_pago := c.fecha_pago
    observaciones := c.observaciones
    created_at := some c.created_at
    updated_at := some c.updated_at }

/-- CuentaServicio.from_dict of models.py: builds cls() (whose
__post_init__ defaults fecha_emision / created_at / updated_at to
datetime.now(), passed here as now) and then overwrites each field
present in the dictionary.  Returns none when TipoServicio(value)
raises ValueError on an unknown service-type string. -/
def from_dict (d : RecordA) (now : PyDateTime) : Option CuentaServicio := do
  let tipo ← TipoServicio.fromValue d.tipo_servicio
  pure
    { id := d.id
      tipo_servicio := tipo
      descripcion := d.descripcion
      monto := d.monto
      fecha_emision := d.fecha_emision.getD now
      fecha_vencimiento := d.fecha_vencimiento
      fecha_corte := d.fecha_corte
      fecha_lectura_proxima := none
      pagado := d.pagado
      fecha_pago := d.fecha_pago
      observaciones := d.observaciones
      created_at := d.created_at.getD now
      updated_at := d.updated_at.getD now }

/-- validar_cuenta of models.py: accumulates the error messages of the
violated checks (the fecha_vencimiento obligatory check uses the
optional field; the cross-date checks run only when both dates are
present). -/
def validar_cuenta (c : CuentaServicio) : List String :=
  (if pyStrip c.descripcion = "" then ["La descripción es obligatoria"] else []) ++
  (if c.monto ≤ 0 then ["El monto debe ser mayor a 0"] else []) ++
  (if c.fecha_vencimiento.isNone then ["La fecha de vencimiento es obligatoria"] else []) ++
  (match c.fecha_vencimiento with
   | some venc =>
     if venc.t ≤ c.fecha_emision.t then
       ["La fecha de vencimiento debe ser posterior a la fecha de emisión"]
     else []
   | none => []) ++
  (match c.fecha_corte, c.fecha_vencimiento with
   | some corte, some venc =>
     if corte.t ≤ venc.t then
       ["La fecha de corte debe ser posterior a la fecha de vencimiento"]
     else []
   | _, _ => [])

/-! ### DatabaseManager free-text search (src/database.py) -/

/-- Python str.lower, per character (the embedded strings are handled
per character by str.lower). -/
def pyLower (s : String) : String := s.map Char.toLower

/-- Python substring test a in b: the character list of a is a
contiguous infix of the character list of b. -/
def pyIn (a b : String) : Prop := a.data <:+: b.data

instance (a b : String) : Decidable (pyIn a b) :=
  inferInstanceAs (Decidable (a.data <:+: b.data))

/-- DatabaseManager.buscar_cuentas of database.py: the in-memory store
(the values of the cuentas dict, in insertion order) filtered by a
case-insensitive substring match of the search term against the
description, the observations and the service-type label. -/
def buscar_cuentas (store : List CuentaServicio) (termino : String) :
    List CuentaServicio :=
  let t := pyLower termino
  store.filter fun cuenta =>
    decide (pyIn t (pyLower cuenta.descripcion)) ||
    decide (pyIn t (pyLower cuenta.observaciones)) ||
    decide (pyIn t (pyLower cuenta.tipo_servicio.value))

end GenA

/-! ## Generation B domain model (src/src/domain/entities.py) -/

namespace GenB

/-- TipoServicio enum of src/src/domain/entities.py (5 values). -/
inductive TipoServicio where
  | LUZ | AGUA | GAS | INTERNET | GASTOS_COMUNES
deriving DecidableEq, Repr

/-- The .value string of each Generation-B TipoServicio member. -/
def TipoServicio.value : TipoServicio → String
  | .LUZ => "Luz"
  | .AGUA => "Agua"
  | .GAS => "Gas"
  | .INTERNET => "Internet"
  | .GASTOS_COMUNES => "Gastos Comunes"

/-- TipoServicio(value) lookup; none models the ValueError on an
unknown value. -/
def TipoServicio.fromValue (s : String) : Option TipoServicio :=
  if s = "Luz" then some .LUZ
  else if s = "Agua" then some .AGUA
  else if s = "Gas" then some .GAS
  else if s = "Internet" then some .INTERNET
  else if s = "Gastos Comunes" then some .GASTOS_COMUNES
  else none

/-- TipoCambio enum of entities.py. -/
inductive TipoCambio where
  | CREACION | PAGO | EDICION | ELIMINACION | VENCIMIENTO | RIESGO_CORTE
deriving DecidableEq, Repr

/-- The .value string of each TipoCambio member. -/
def TipoCambio.value : TipoCambio → String
  | .CREACION => "Creación"
  | .PAGO => "Pago"
  | .EDICION => "Edición"
  | .ELIMINACION => "Eliminación"
  | .VENCIMIENTO => "Vencimiento"
  | .RIESGO_CORTE => "Riesgo de Corte"

/-- TipoCambio(value) lookup; none models the ValueError on an unknown
value. -/
def TipoCambio.fromValue (s : String) : Option TipoCambio :=
  if s = "Creación" then some .CREACION
  else if s = "Pago" then some .PAGO
  else if s = "Edición" then some .EDICION
  else if s = "Eliminación" then some .ELIMINACION
  else if s = "Vencimiento" then some .VENCIMIENTO
  else if s = "Riesgo de Corte" then some .RIESGO_CORTE
  else none

/-- A JSON-representable leaf value inside a change-history snapshot
dict (the datos_anteriores / datos_nuevos payloads hold booleans,
strings and null). -/
inductive SnapVal where
  | vBool (b : Bool)
  | vStr (s : String)
  | vNone
deriving DecidableEq, Repr

/-- A change-history before/after snapshot: a small string-keyed dict. -/
def Datos := List (String × SnapVal)
deriving DecidableEq, Repr

/-- The HistorialCambio dataclass of entities.py. -/
structure HistorialCambio where
  id : String
  cuenta_id : String
  tipo_cambio : TipoCambio
  fecha_cambio : PyDateTime
  descripcion : String
  datos_anteriores : Option Datos := none
  datos_nuevos : Option Datos := none
deriving DecidableEq, Repr

/-- HistorialCambio construction: __post_init__ raises ValueError when
the description is empty. -/
def HistorialCambio.mk? (id cuenta_id : String) (tipo_cambio : TipoCambio)
    (fecha_cambio : PyDateTime) (descripcion : String)
    (datos_anteriores datos_nuevos : Option Datos) :
    Except String HistorialCambio :=
  if descripcion = "" then
    .error "La descripción no puede estar vacía"
  else
    .ok { id, cuenta_id, tipo_cambio, fecha_cambio, descripcion,
          datos_anteriores, datos_nuevos }

/-- The four characters rejected by the regex [<>\x22\x27] used in
entities.py and validators.py: less-than, greater-than, double quote,
single quote. -/
def caracteresPeligrosos : List Char :=
  [Char.ofNat 60, Char.ofNat 62, Char.ofNat 34, Char.ofNat 39]

/-- re.search of the forbidden-character class over a string. -/
def contienePeligrosos (s : String) : Bool :=
  s.data.any fun c => caracteresPeligrosos.contains c

/-- The CuentaServicio dataclass of entities.py (Generation B).  All
required fields of the constructor; historial is the list that
__post_init__ defaults to [] when the argument is None. -/
structure CuentaServicio where
  id : String
  tipo_servicio : TipoServicio
  fecha_emision : PyDateTime
  fecha_vencimiento : PyDateTime
  monto : Rat
  descripcion : String
  pagado : Bool := false
  fecha_pago : Option PyDateTime := none
  observaciones : String := ""
  fecha_proxima_lectura : Option PyDateTime := none
  fecha_corte : Option PyDateTime := none
  historial : List HistorialCambio := []
deriving DecidableEq, Repr

/-- The validation sequence of CuentaServicio.__post_init__ in
entities.py, with datetime.now() passed explicitly: returns the
message of the FIRST violated check (the construction raises there and
never evaluates the later checks), or none when every check passes. -/
def cuenta_checks (monto : Rat) (fecha_emision fecha_vencimiento : PyDateTime)
    (fecha_proxima_lectura fecha_corte : Option PyDateTime)
    (descripcion observaciones : String) (now : PyDateTime) : Option String :=
  if monto ≤ 0 then
    some "El monto debe ser mayor a 0"
  else if 10000000 < monto then
    some "El monto no puede exceder $10,000,000"
  else if fecha_vencimiento.t ≤ fecha_emision.t then
    some "La fecha de vencimiento debe ser posterior a la fecha de emisión"
  else if (now.addDays 365).t < fecha_emision.t then
    some "La fecha de emisión no puede ser más de 1 año en el futuro"
  else if fecha_emision.t < (now.addDays (-3650)).t then
    some "La fecha de emisión no puede ser más antigua de 10 años"
  else if fecha_proxima_lectura.elim false fun l => decide (l.t < fecha_emision.t) then
    some "La fecha de próxima lectura no puede ser anterior a la fecha de emisión"
  else if fecha_corte.elim false fun f => decide (f.t < fecha_emision.t) then
    some "La fecha de corte no puede ser anterior a la fecha de emisión"
  else if fecha_corte.elim false fun f => decide ((fecha_vencimiento.addDays 30).t < f.t) then
    some "La fecha de corte no puede ser más de 30 días después del vencimiento"
  else if descripcion = "" ∨ pyStrip descripcion = "" then
    some "La descripción no puede estar vacía"
  else if 500 < (pyStrip descripcion).length then
    some "La descripción no puede exceder 500 caracteres"
  else if contienePeligrosos descripcion then
    some "La descripción no puede contener caracteres especiales como <, >, \x22, \x27"
  else if 1000 < observaciones.length then
    some "Las observaciones no pueden exceder 1000 caracteres"
  else if contienePeligrosos observaciones then
    some "Las observaciones no pueden contener caracteres especiales como <, >, \x22, \x27"
  else
    none

/-- Constructing a Generation-B CuentaServicio: runs __post_init__ and
either raises (the Except.error carries the ValueError message) or
yields the entity, with a None historial argument defaulted to []. -/
def CuentaServicio.mk? (id : String) (tipo_servicio : TipoServicio)
    (fecha_emision fecha_vencimiento : PyDateTime) (monto : Rat)
    (descripcion : String) (pagado : Bool) (fecha_pago : Option PyDateTime)
    (observaciones : String) (fecha_proxima_lectura fecha_corte : Option PyDateTime)
    (historial : Option (List HistorialCambio)) (now : PyDateTime) :
    Except String CuentaServicio :=
  match cuenta_checks monto fecha_emision fecha_vencimiento
      fecha_proxima_lectura fecha_corte descripcion observaciones now with
  | some e => .error e
  | none =>
    .ok { id, tipo_servicio, fecha_emision, fecha_vencimiento, monto,
          descripcion, pagado, fecha_pago, observaciones,
          fecha_proxima_lectura, fecha_corte,
          historial := historial.getD [] }

/-- Rounding used by Python float formatting with 0 decimals
(round-half-to-even), on the exact rational model. -/
def pyRound (q : Rat) : Int :=
  let f := q.floor
  let frac := q - (f : Rat)
  if frac < 1/2 then f
  else if 1/2 < frac then f + 1
  else if f % 2 = 0 then f else f + 1

/-- Thousands grouping of a natural number's decimal digits, as in the
Python format spec {:,}. -/
def groupMiles (n : Nat) : String :=
  let chunks := (toString n).data.reverse.toChunks 3
  String.mk (((chunks.intersperse [Char.ofNat 44]).flatten).reverse)

/-- Python f-string formatting {:,.0f}: round to an integer and group
thousands. -/
def fmtComma0 (q : Rat) : String :=
  let n := pyRound q
  (if n < 0 then "-" else "") ++ groupMiles n.natAbs

/-- Python f-string formatting {:.1f}: one decimal digit. -/
def fmt1 (q : Rat) : String :=
  let n := pyRound (10 * q)
  (if n < 0 then "-" else "") ++
    toString (n.natAbs / 10) ++ "." ++ toString (n.natAbs % 10)

/-- Abstract injective rendering standing for
now.strftime("%Y%m%d_%H%M%S") in the change-history id; no claim
inspects its digits, only the identity of the resulting string. -/
def strftimeTimestamp (d : PyDateTime) : String :=
  toString d.t ++ "_" ++ toString d.month

/-- Abstract injective rendering standing for datetime.isoformat()
where the ISO text itself is stored inside a snapshot string; no claim
inspects its digits. -/
def isoStr (d : PyDateTime) : String :=
  toString d.t ++ "T" ++ toString d.month

/-- CuentaServicio.marcar_como_pagado of entities.py: guarded by "not
already paid"; on the first call it sets the flag, the payment
timestamp (argument or now) and appends one Payment history entry; on
an already-paid account it does nothing. -/
def marcar_como_pagado (c : CuentaServicio) (fecha_pago : Option PyDateTime)
    (now : PyDateTime) : CuentaServicio :=
  if c.pagado then c
  else
    let pago := fecha_pago.getD now
    let cambio : HistorialCambio :=
      { id := "hist_" ++ c.id ++ "_" ++ strftimeTimestamp now
        cuenta_id := c.id
        tipo_cambio := .PAGO
        fecha_cambio := now
        descripcion := "Cuenta marcada como pagada - Monto: $" ++ fmtComma0 c.monto
        datos_anteriores := some [("pagado", .vBool false), ("fecha_pago", .vNone)]
        datos_nuevos := some [("pagado", .vBool true), ("fecha_pago", .vStr (isoStr pago))] }
    { c with
      pagado := true
      fecha_pago := some pago
      historial := c.historial ++ [cambio] }

/-- CuentaServicio.esta_vencida of entities.py. -/
def esta_vencida (c : CuentaServicio) (now : PyDateTime) : Bool :=
  !c.pagado && decide (c.fecha_vencimiento.t < now.t)

/-- CuentaServicio.dias_para_vencer of entities.py: 0 once paid, else
the day count of the timedelta to the due date clamped at 0. -/
def dias_para_vencer (c : CuentaServicio) (now : PyDateTime) : Int :=
  if c.pagado then 0
  else max 0 (PyDateTime.deltaDays c.fecha_vencimiento now)

/-- CuentaServicio.esta_en_riesgo_corte of entities.py. -/
def esta_en_riesgo_corte (c : CuentaServicio) (now : PyDateTime) : Bool :=
  if c.pagado then false
  else
    match c.fecha_corte with
    | none => false
    | some corte => decide (corte.t ≤ now.t)

/-! ### Centralized validators (src/src/domain/validators.py) -/

/-- CuentaServicioValidator.validar_monto: at most one message. -/
def validar_monto (monto : Rat) : Option String :=
  if monto ≤ 0 then some "El monto debe ser mayor a 0"
  else if 10000000 < monto then some "El monto no puede exceder $10,000,000"
  else none

/-- CuentaServicioValidator.validar_fechas: at most one message (note
the day-count wording, unlike the year wording of __post_init__). -/
def validar_fechas (fecha_emision fecha_vencimiento : PyDateTime)
    (now : PyDateTime) : Option String :=
  if fecha_vencimiento.t ≤ fecha_emision.t then
    some "La fecha de vencimiento debe ser posterior a la fecha de emisión"
  else if (now.addDays 365).t < fecha_emision.t then
    some "La fecha de emisión no puede ser más de 365 días en el futuro"
  else if fecha_emision.t < (now.addDays (-3650)).t then
    some "La fecha de emisión no puede ser más antigua de 3650 días"
  else none

/-- CuentaServicioValidator.validar_fecha_proxima_lectura. -/
def validar_fecha_proxima_lectura (fecha_proxima_lectura : Option PyDateTime)
    (fecha_emision : PyDateTime) : Option String :=
  if fecha_proxima_lectura.elim false fun l => decide (l.t < fecha_emision.t) then
    some "La fecha de próxima lectura no puede ser anterior a la fecha de emisión"
  else none

/-- CuentaServicioValidator.validar_fecha_corte: at most one message. -/
def validar_fecha_corte (fecha_corte : Option PyDateTime)
    (fecha_emision fecha_vencimiento : PyDateTime) : Option String :=
  if fecha_corte.elim false fun f => decide (f.t < fecha_emision.t) then
    some "La fecha de corte no puede ser anterior a la fecha de emisión"
  else if fecha_corte.elim false fun f => decide ((fecha_vencimiento.addDays 30).t < f.t) then
    some "La fecha de corte no puede ser más de 30 días después del vencimiento"
  else none

/-- CuentaServicioValidator.validar_descripcion: at most one message. -/
def validar_descripcion (descripcion : String) : Option String :=
  if descripcion = "" ∨ pyStrip descripcion = "" then
    some "La descripción no puede estar vacía"
  else if 500 < (pyStrip descripcion).length then
    some "La descripción no puede exceder 500 caracteres"
  else if contienePeligrosos descripcion then
    some "La descripción no puede contener caracteres especiales como <, >, \x22, \x27"
  else none

/-- CuentaServicioValidator.validar_observaciones: at most one message. -/
def validar_observaciones (observaciones : String) : Option String :=
  if 1000 < observaciones.length then
    some "Las observaciones no pueden exceder 1000 caracteres"
  else if contienePeligrosos observaciones then
    some "Las observaciones no pueden contener caracteres especiales como <, >, \x22, \x27"
  else none

/-- CuentaServicioValidator.validar_cuenta_completa of validators.py:
runs the six per-field validators in order and accumulates every
returned message (the first violation of each field group; groups
after a violated one are still checked). -/
def validar_cuenta_completa (_tipo_servicio : TipoServicio)
    (fecha_emision fecha_vencimiento : PyDateTime) (monto : Rat)
    (descripcion observaciones : String)
    (fecha_proxima_lectura fecha_corte : Option PyDateTime)
    (now : PyDateTime) : List String :=
  [validar_monto monto,
   validar_fechas fecha_emision fecha_vencimiento now,
   validar_fecha_proxima_lectura fecha_proxima_lectura fecha_emision,
   validar_fecha_corte fecha_corte fecha_emision fecha_vencimiento,
   validar_descripcion descripcion,
   validar_observaciones observaciones].filterMap id

end GenB

/-! ## Application use cases (src/src/application/casos_uso.py) -/

namespace GenB

/-- JSONCuentaServicioRepository.obtener_pendientes (repositories.py):
the stored accounts with the paid flag unset, in store order. -/
def obtener_pendientes (store : List CuentaServicio) : List CuentaServicio :=
  store.filter fun c => !c.pagado

/-- Notificaciones.obtener_cuentas_por_vencer of casos_uso.py. -/
def obtener_cuentas_por_vencer (store : List CuentaServicio)
    (dias_limite : Int) (now : PyDateTime) : List CuentaServicio :=
  (obtener_pendientes store).filter fun cuenta =>
    decide (dias_para_vencer cuenta now ≤ dias_limite) &&
    decide (0 < dias_para_vencer cuenta now)

/-- Notificaciones.obtener_cuentas_vencidas_hoy of casos_uso.py: the
pending accounts whose dias_para_vencer is 0. -/
def obtener_cuentas_vencidas_hoy (store : List CuentaServicio)
    (now : PyDateTime) : List CuentaServicio :=
  (obtener_pendientes store).filter fun cuenta =>
    decide (dias_para_vencer cuenta now = 0)

/-! ## Notification service
(src/src/infrastructure/notification_service.py) -/

/-- The four buckets returned by
NotificationService.get_recordatorios_diarios. -/
structure Recordatorios where
  vencen_hoy : List CuentaServicio := []
  vencen_proximamente : List CuentaServicio := []
  en_riesgo_corte : List CuentaServicio := []
  vencidas : List CuentaServicio := []
deriving DecidableEq, Repr

/-- NotificationService.get_recordatorios_diarios of
notification_service.py.  dias_vencimiento is the configured
vencimiento_dias_antes; the configured riesgo_corte_dias_antes is read
by the source but never used in any bucket condition, so it is not a
parameter here.  Each unpaid account goes to the first matching branch
of the if/elif chain (or to no bucket when every condition fails). -/
def get_recordatorios_diarios (dias_vencimiento : Int)
    (cuentas : List CuentaServicio) (hoy : PyDateTime) : Recordatorios :=
  cuentas.foldl
    (fun acc cuenta =>
      if cuenta.pagado then acc
      else if cuenta.fecha_vencimiento.dateOf = hoy.dateOf then
        { acc with vencen_hoy := acc.vencen_hoy ++ [cuenta] }
      else if cuenta.fecha_vencimiento.dateOf - hoy.dateOf ≤ dias_vencimiento then
        { acc with vencen_proximamente := acc.vencen_proximamente ++ [cuenta] }
      else if esta_en_riesgo_corte cuenta hoy then
        { acc with en_riesgo_corte := acc.en_riesgo_corte ++ [cuenta] }
      else if esta_vencida cuenta hoy then
        { acc with vencidas := acc.vencidas ++ [cuenta] }
      else acc)
    {}

/-! ## Generation-B JSON repository
(src/src/infrastructure/repositories.py) and the Security Manager
sanitizer (src/src/infrastructure/security.py) -/

/-- The dictionary shape of one serialized change-history entry
(_serializar_historial). -/
structure HistRecord where
  id : String
  cuenta_id : String
  tipo_cambio : String
  fecha_cambio : PyDateTime
  descripcion : String
  datos_anteriores : Option Datos
  datos_nuevos : Option Datos
deriving DecidableEq, Repr

/-- The dictionary shape of one serialized account
(_serializar_cuenta), as stored in data/cuentas.json.  Date fields
carry the ISO-8601 channel modelled as the PyDateTime value. -/
structure RecordB where
  id : String
  tipo_servicio : String
  fecha_emision : PyDateTime
  fecha_vencimiento : PyDateTime
  monto : Rat
  descripcion : String
  pagado : Bool
  fecha_pago : Option PyDateTime
  observaciones : String
  fecha_proxima_lectura : Option PyDateTime
  fecha_corte : Option PyDateTime
  historial : List HistRecord
deriving DecidableEq, Repr

/-- JSONCuentaServicioRepository._serializar_historial. -/
def serializar_historial (h : HistorialCambio) : HistRecord :=
  { id := h.id
    cuenta_id := h.cuenta_id
    tipo_cambio := h.tipo_cambio.value
    fecha_cambio := h.fecha_cambio
    descripcion := h.descripcion
    datos_anteriores := h.datos_anteriores
    datos_nuevos := h.datos_nuevos }

/-- JSONCuentaServicioRepository._serializar_cuenta. -/
def serializar_cuenta (c : CuentaServicio) : RecordB :=
  { id := c.id
    tipo_servicio := c.tipo_servicio.value
    fecha_emision := c.fecha_emision
    fecha_vencimiento := c.fecha_vencimiento
    monto := c.monto
    descripcion := c.descripcion
    pagado := c.pagado
    fecha_pago := c.fecha_pago
    observaciones := c.observaciones
    fecha_proxima_lectura := c.fecha_proxima_lectura
    fecha_corte := c.fecha_corte
    historial := c.historial.map serializar_historial }

/-- The list comprehension [self._deserializar_historial(h) for h in
data] of _deserializar_cuenta: sequential, raising (erroring) at the
first entry that fails. -/
def mapDeserializarHist (f : HistRecord → Except String HistorialCambio) :
    List HistRecord → Except String (List HistorialCambio)
  | [] => .ok []
  | d :: rest => do
    let h ← f d
    let hs ← mapDeserializarHist f rest
    pure (h :: hs)

/-- JSONCuentaServicioRepository._deserializar_historial: raises
(Except.error) when the stored tipo_cambio string is not a valid
TipoCambio value or the HistorialCambio validation rejects an empty
description (the error text of the enum ValueError is abstracted; the
load path only catches it). -/
def deserializar_historial (d : HistRecord) : Except String HistorialCambio :=
  match TipoCambio.fromValue d.tipo_cambio with
  | none => .error "ValueError: not a valid TipoCambio"
  | some tc =>
    HistorialCambio.mk? d.id d.cuenta_id tc d.fecha_cambio d.descripcion
      d.datos_anteriores d.datos_nuevos

/-- JSONCuentaServicioRepository._deserializar_cuenta: constructs the
entity (running its __post_init__ validation against now) from the
constructor fields id / tipo_servicio / fecha_emision /
fecha_vencimiento / monto / descripcion / pagado / observaciones, then
assigns fecha_pago, fecha_proxima_lectura, fecha_corte and historial
directly on the constructed object when present (these assignments
bypass the construction-time validation).  An unknown tipo_servicio
string raises ValueError. -/
def deserializar_cuenta (d : RecordB) (now : PyDateTime) :
    Except String CuentaServicio := do
  let tipo ← match TipoServicio.fromValue d.tipo_servicio with
    | none => Except.error "ValueError: not a valid TipoServicio"
    | some t => Except.ok t
  let base ← CuentaServicio.mk? d.id tipo d.fecha_emision d.fecha_vencimiento
    d.monto d.descripcion d.pagado none d.observaciones none none none now
  let hist ← match d.historial with
    | [] => Except.ok base.historial
    | hs => mapDeserializarHist deserializar_historial hs
  pure { base with
    fecha_pago := d.fecha_pago
    fecha_proxima_lectura := d.fecha_proxima_lectura
    fecha_corte := d.fecha_corte
    historial := hist }

/-- SecurityManager.sanitizar_texto of security.py: remove the four
forbidden characters, truncate to 1000 characters, then strip
surrounding whitespace. -/
def sanitizar_texto (texto : String) : String :=
  let limpio := texto.data.filter fun c => !caracteresPeligrosos.contains c
  pyStrip (String.mk (limpio.take 1000))

/-- SecurityManager.sanitizar_datos_json on a snapshot leaf value:
strings are sanitized, booleans kept, and a JSON null is stringified
(str(None)) and sanitized to the text None. -/
def sanitizar_snap : SnapVal → SnapVal
  | .vBool b => .vBool b
  | .vStr s => .vStr (sanitizar_texto s)
  | .vNone => .vStr "None"

/-- SecurityManager.sanitizar_datos_json on a snapshot dict: keys
longer than 100 characters are dropped, keys are sanitized and dropped
when empty afterwards, values are sanitized per type. -/
def sanitizar_datos (d : Datos) : Datos :=
  d.filterMap fun kv =>
    if 100 < kv.1.length then none
    else
      let sk := sanitizar_texto kv.1
      if sk = "" then none else some (sk, sanitizar_snap kv.2)

/-- sanitizar_datos_json on one serialized history entry.  The fixed
record keys are short and survive sanitization unchanged; ISO date
text contains none of the forbidden characters, no surrounding
whitespace and fewer than 1000 characters, so the date channel is
unchanged.  A top-level null snapshot dict is modelled as staying
null (see sanitizar_record). -/
def sanitizar_hist_record (h : HistRecord) : HistRecord :=
  { id := sanitizar_texto h.id
    cuenta_id := sanitizar_texto h.cuenta_id
    tipo_cambio := sanitizar_texto h.tipo_cambio
    fecha_cambio := h.fecha_cambio
    descripcion := sanitizar_texto h.descripcion
    datos_anteriores := h.datos_anteriores.map sanitizar_datos
    datos_nuevos := h.datos_nuevos.map sanitizar_datos }

/-- SecurityManager.sanitizar_datos_json applied to one serialized
account record, as _cargar_cuentas does before deserializing.  String
fields are sanitized, numbers and booleans kept, the historial list is
truncated to its first 100 entries and sanitized entry by entry.
Modelling note: the Python sanitizer stringifies a JSON null to the
text None, which the deserializer then fails to parse as a date, so in
Python a null optional date makes the record fail to load; here the
optional-date channel keeps null as none — this only makes FEWER
records fail than in Python, and no claim depends on a successful load
of a record with a null optional date. -/
def sanitizar_record (d : RecordB) : RecordB :=
  { id := sanitizar_texto d.id
    tipo_servicio := sanitizar_texto d.tipo_servicio
    fecha_emision := d.fecha_emision
    fecha_vencimiento := d.fecha_vencimiento
    monto := d.monto
    descripcion := sanitizar_texto d.descripcion
    pagado := d.pagado
    fecha_pago := d.fecha_pago
    observaciones := sanitizar_texto d.observaciones
    fecha_proxima_lectura := d.fecha_proxima_lectura
    fecha_corte := d.fecha_corte
    historial := (d.historial.take 100).map sanitizar_hist_record }

/-- Insertion into the cuentas dict keyed by account id (overwrite on
an existing key, append on a new one). -/
def dictInsert (acc : List (String × CuentaServicio)) (k : String)
    (v : CuentaServicio) : List (String × CuentaServicio) :=
  if acc.any fun p => p.1 = k then
    acc.map fun p => if p.1 = k then (k, v) else p
  else acc ++ [(k, v)]

/-- The record loop of JSONCuentaServicioRepository._cargar_cuentas:
sanitize then deserialize each record, building the id-keyed dict;
none signals that some record raised. -/
def cargar_go (now : PyDateTime) (acc : List (String × CuentaServicio)) :
    List RecordB → Option (List (String × CuentaServicio))
  | [] => some acc
  | r :: rest =>
    match deserializar_cuenta (sanitizar_record r) now with
    | .error _ => none
    | .ok c => cargar_go now (dictInsert acc c.id c) rest

/-- JSONCuentaServicioRepository._cargar_cuentas on an existing,
security-valid file whose JSON parsed to the given records: the whole
loop runs under one try/except, and ANY record that raises during
deserialization abandons the load and leaves self.cuentas = {}. -/
def cargar_cuentas (records : List RecordB) (now : PyDateTime) :
    List (String × CuentaServicio) :=
  (cargar_go now [] records).getD []

end GenB

/-! ## OCR service confidence (src/src/ai/ocr_service.py) -/

namespace AI

/-- OCRService.calculate_confidence of ocr_service.py: one point for
each of the four extracted fields, scaled to a percentage.  The
recognized text argument is received but never read.  The amount
counts when present and strictly positive (the Python truthiness guard
monto and monto > 0 is equivalent to 0 < monto on a present value). -/
def calculate_confidence (_text : String) (monto : Option Rat)
    (fecha_emision fecha_vencimiento : Option PyDateTime)
    (tipo_servicio : Option GenB.TipoServicio) : Rat :=
  let confidence : Rat :=
    (match monto with | some m => if 0 < m then 1 else 0 | none => 0) +
    (match fecha_emision with | some _ => 1 | none => 0) +
    (match fecha_vencimiento with | some _ => 1 | none => 0) +
    (match tipo_servicio with | some _ => 1 | none => 0)
  (confidence / 4) * 100

end AI

/-! ## Recommendation service (src/src/ai/recommendation_service.py) -/

namespace AI

open GenB

/-- The Recommendation dataclass.  prioridad is one of the strings
alta / media / baja (every construction site uses a literal). -/
structure Recommendation where
  tipo : String
  titulo : String
  descripcion : String
  impacto : Rat
  accion : String
  prioridad : String
deriving DecidableEq, Repr

/-- One step of building a Python dict of lists with per-key append
(insertion-ordered keys). -/
def keyInsert {κ α : Type} [DecidableEq κ] (acc : List (κ × List α))
    (k : κ) (x : α) : List (κ × List α) :=
  if acc.any fun p => p.1 = k then
    acc.map fun p => if p.1 = k then (p.1, p.2 ++ [x]) else p
  else acc ++ [(k, [x])]

/-- The cuentas_por_tipo / montos_por_mes grouping idiom: a dict from
key to the list of elements with that key, keys in first-appearance
order, each list in traversal order. -/
def groupByKey {κ α : Type} [DecidableEq κ] (key : α → κ)
    (l : List α) : List (κ × List α) :=
  l.foldl (fun acc x => keyInsert acc (key x) x) []

/-- Stable ascending insertion of an element that precedes the list
elements in the original order (used to model Python stable sort). -/
def stableInsert {α : Type} (le : α → α → Bool) (x : α) :
    List α → List α
  | [] => [x]
  | y :: ys => if le x y then x :: y :: ys else y :: stableInsert le x ys

/-- Stable sort with respect to a total boolean comparison, modelling
Python list.sort (elements comparing equal keep their original
order). -/
def stableSort {α : Type} (le : α → α → Bool) : List α → List α
  | [] => []
  | x :: xs => stableInsert le x (stableSort le xs)

/-- cuentas_tipo.sort(key=lambda x: x.fecha_emision) of
analyze_spending_patterns. -/
def sortByEmision (l : List CuentaServicio) : List CuentaServicio :=
  stableSort (fun a b => decide (a.fecha_emision.t ≤ b.fecha_emision.t)) l

/-- np.mean of a rational list (all call sites pass a nonempty
list). -/
def mean (l : List Rat) : Rat := l.sum / l.length

/-- max(items, key=lambda x: x[1]): the FIRST item of maximal second
component, none on an empty list. -/
def maxBySnd (l : List (Nat × Rat)) : Option (Nat × Rat) :=
  l.foldl
    (fun acc p => match acc with
      | none => some p
      | some q => if q.2 < p.2 then some p else some q)
    none

/-- min(items, key=lambda x: x[1]): the FIRST item of minimal second
component, none on an empty list. -/
def minBySnd (l : List (Nat × Rat)) : Option (Nat × Rat) :=
  l.foldl
    (fun acc p => match acc with
      | none => some p
      | some q => if p.2 < q.2 then some p else some q)
    none

/-- The fields of one analisis_por_tipo entry that
generate_recommendations reads.  The source also computes tendencia (a
least-squares slope, read only by get_savings_forecast), mediana and
volatilidad (a real-valued standard deviation); none of those is read
by generate_recommendations or by any claim, so they are omitted. -/
structure AnalisisTipo where
  total_cuentas : Nat
  promedio_actual : Rat
  porcentaje_cambio : Rat
  mes_max_consumo : Option (Nat × Rat)
  mes_min_consumo : Option (Nat × Rat)
  ultimo_monto : Rat
  primer_monto : Rat
deriving DecidableEq, Repr

/-- The per-type body of analyze_spending_patterns: sort the bucket by
issue date, take the amount series, compute the first-to-last
percentage change (0 when the series has one element or starts
non-positive), and the per-month mean peaks. -/
def analisisTipo (cuentas_tipo : List CuentaServicio) : AnalisisTipo :=
  let sorted := sortByEmision cuentas_tipo
  let montos := sorted.map fun c => c.monto
  let m0 := montos.headD 0
  let mL := montos.getLastD 0
  let pc : Rat :=
    if 1 < montos.length then
      if 0 < m0 then (mL - m0) / m0 * 100 else 0
    else 0
  let meses_consumo :=
    (groupByKey (fun c => c.fecha_emision.month) sorted).map
      fun p => (p.1, mean (p.2.map fun c => c.monto))
  { total_cuentas := sorted.length
    promedio_actual := mean montos
    porcentaje_cambio := pc
    mes_max_consumo := maxBySnd meses_consumo
    mes_min_consumo := minBySnd meses_consumo
    ultimo_monto := mL
    primer_monto := m0 }

/-- analisis_por_tipo of analyze_spending_patterns: group the accounts
by service-type label (first-appearance key order), skip types with
fewer than 3 accounts, and analyze each remaining bucket. -/
def analisis_por_tipo (cuentas : List CuentaServicio) :
    List (String × AnalisisTipo) :=
  (groupByKey (fun c => c.tipo_servicio.value) cuentas).filterMap
    fun p => if p.2.length < 3 then none else some (p.1, analisisTipo p.2)

/-- Title of the significant-increase alert for a service type. -/
def tituloIncremento (tipo : String) : String :=
  "⚠️ Incremento significativo en " ++ tipo

/-- Title of the saving note for a service type. -/
def tituloAhorro (tipo : String) : String :=
  "✅ Ahorro detectado en " ++ tipo

/-- Title of the seasonal-pattern note for a service type. -/
def tituloEstacional (tipo : String) : String :=
  "📅 Patrón estacional detectado en " ++ tipo

/-- Title of the due-soon alert. -/
def tituloPorVencer (n : Nat) : String :=
  "📅 " ++ toString n ++ " cuenta(s) por vencer"

/-- Title of the cutoff-risk alert. -/
def tituloRiesgo (n : Nat) : String :=
  "🚨 " ++ toString n ++ " cuenta(s) en riesgo de corte"

/-- Title of the optimization-opportunities note. -/
def tituloOptimizacion : String := "💡 Oportunidades de optimización"

/-- Title of the payment-consistency note. -/
def tituloConsistencia : String := "📊 Análisis de consistencia en pagos"

/-- The seasonal-pattern recommendation of one iteration of the
per-type trend loop (the mes_max_consumo / mes_min_consumo branch). -/
def rec_estacional (tipo : String) (mmaxo mmino : Option (Nat × Rat)) :
    List Recommendation :=
  match mmaxo, mmino with
  | some mmax, some mmin =>
    let variacion : Rat :=
      if 0 < mmin.2 then (mmax.2 - mmin.2) / mmin.2 * 100 else 0
    if 30 < variacion then
      [{ tipo := "optimizacion"
         titulo := tituloEstacional tipo
         descripcion := "El consumo varía significativamente entre meses. Mayor consumo en mes " ++
           toString mmax.1 ++ " ($" ++ fmtComma0 mmax.2 ++ ") vs mes " ++
           toString mmin.1 ++ " ($" ++ fmtComma0 mmin.2 ++ ")."
         impacto := 60
         accion := "Planificar consumo según estacionalidad"
         prioridad := "media" }]
    else []
  | _, _ => []

/-- The recommendations appended by one iteration of the per-type
trend loop of generate_recommendations: the increase alert (priority
alta above a 25 percent change, media otherwise), ELSE the saving
note, then independently the seasonal note. -/
def recs_tendencia (tipo : String) (datos : AnalisisTipo) :
    List Recommendation :=
  (if 15 < datos.porcentaje_cambio then
    [{ tipo := "alerta"
       titulo := tituloIncremento tipo
       descripcion := "El " ++ tipo ++ " ha aumentado un " ++
         fmt1 datos.porcentaje_cambio ++
         "% en el período analizado. Considera revisar tu consumo o buscar alternativas."
       impacto := min 100 (datos.porcentaje_cambio * 2)
       accion := "Revisar consumo y buscar optimizaciones"
       prioridad := if 25 < datos.porcentaje_cambio then "alta" else "media" }]
  else if datos.porcentaje_cambio < -10 then
    [{ tipo := "ahorro"
       titulo := tituloAhorro tipo
       descripcion := "¡Excelente! El " ++ tipo ++ " ha disminuido un " ++
         fmt1 |datos.porcentaje_cambio| ++ "%. Mantén estas buenas prácticas."
       impacto := 50
       accion := "Mantener hábitos de consumo eficiente"
       prioridad := "baja" }]
  else []) ++
  rec_estacional tipo datos.mes_max_consumo datos.mes_min_consumo

/-- RecommendationService._get_cuentas_por_vencer: unpaid accounts
whose due date is 1..3 whole days away. -/
def get_cuentas_por_vencer (cuentas : List CuentaServicio)
    (hoy : PyDateTime) : List CuentaServicio :=
  cuentas.filter fun c =>
    !c.pagado &&
    decide (PyDateTime.deltaDays c.fecha_vencimiento hoy ≤ 3) &&
    decide (0 < PyDateTime.deltaDays c.fecha_vencimiento hoy)

/-- RecommendationService._get_cuentas_riesgo_corte: unpaid accounts
with a cutoff date 1..5 whole days away. -/
def get_cuentas_riesgo_corte (cuentas : List CuentaServicio)
    (hoy : PyDateTime) : List CuentaServicio :=
  cuentas.filter fun c =>
    !c.pagado &&
    (match c.fecha_corte with
     | none => false
     | some corte =>
       decide (PyDateTime.deltaDays corte hoy ≤ 5) &&
       decide (0 < PyDateTime.deltaDays corte hoy))

/-- The descripcion / impacto / accion triple returned by the optional
analysis helpers. -/
structure OptInfo where
  descripcion : String
  impacto : Rat
  accion : String
deriving DecidableEq, Repr

/-- RecommendationService._analyze_optimization_opportunities: over
the (unsorted) per-type buckets of at least 3 accounts, collect the
types whose last recorded amount exceeds 1.2 times the bucket mean,
with the summed excess as impact (scaled by 1/1000, capped at 100). -/
def analyze_optimization_opportunities (cuentas : List CuentaServicio) :
    Option OptInfo :=
  if cuentas.isEmpty then none
  else
    let grupos := groupByKey (fun c => c.tipo_servicio.value) cuentas
    let acc :=
      grupos.foldl
        (fun (acc : List String × Rat) p =>
          if p.2.length < 3 then acc
          else
            let montos := p.2.map fun c => c.monto
            let promedio := mean montos
            let ultimo := montos.getLastD 0
            if promedio * (12/10) < ultimo then
              (acc.1 ++ [p.1 ++ ": $" ++ fmtComma0 (ultimo - promedio) ++
                " sobre el promedio"],
               acc.2 + (ultimo - promedio))
            else acc)
        ([], 0)
    if acc.1.isEmpty then none
    else
      some
        { descripcion := "Posibles optimizaciones detectadas: " ++
            String.intercalate "; " acc.1 ++ ". Potencial ahorro: $" ++
            fmtComma0 acc.2 ++ "."
          impacto := min 100 (acc.2 / 1000)
          accion := "Revisar consumo reciente vs histórico" }

/-- RecommendationService._analyze_payment_consistency: over the paid
accounts carrying a payment date (at least 5), the mean whole-day
lateness and the on-time percentage; a lateness note above 5 mean days
late, else a consistency note below a 70 percent on-time rate. -/
def analyze_payment_consistency (cuentas : List CuentaServicio) :
    Option OptInfo :=
  let pagadas := cuentas.filter fun c => c.pagado && c.fecha_pago.isSome
  if pagadas.length < 5 then none
  else
    let dias_retraso := pagadas.filterMap fun c =>
      c.fecha_pago.map fun pago =>
        PyDateTime.deltaDays pago c.fecha_vencimiento
    if dias_retraso.isEmpty then none
    else
      let promedio_retraso : Rat :=
        (dias_retraso.map fun d => (d : Rat)).sum / dias_retraso.length
      let pagos_a_tiempo := (dias_retraso.filter fun d => d ≤ 0).length
      let porcentaje_a_tiempo : Rat :=
        ((pagos_a_tiempo : Rat) / dias_retraso.length) * 100
      if 5 < promedio_retraso then
        some
          { descripcion := "Promedio de retraso en pagos: " ++
              fmt1 promedio_retraso ++ " días. Solo " ++
              fmt1 porcentaje_a_tiempo ++ "% de pagos a tiempo."
            impacto := min 100 (promedio_retraso * 5)
            accion := "Configurar recordatorios automáticos y pagos programados" }
      else if porcentaje_a_tiempo < 70 then
        some
          { descripcion := "Consistencia en pagos: " ++
              fmt1 porcentaje_a_tiempo ++ "% a tiempo. Promedio de retraso: " ++
              fmt1 promedio_retraso ++ " días."
            impacto := 40
            accion := "Mejorar consistencia en fechas de pago" }
      else none

/-- The {alta: 3, media: 2, baja: 1} lookup of the sort key (every
constructed recommendation carries one of the three literals). -/
def prioridadRank (p : String) : Rat :=
  if p = "alta" then 3 else if p = "media" then 2
  else if p = "baja" then 1 else 0

/-- key a >= key b for the final sort key (impacto, priority rank),
compared lexicographically. -/
def recKeyGe (a b : Recommendation) : Bool :=
  decide (b.impacto < a.impacto) ||
  (decide (a.impacto = b.impacto) &&
   decide (prioridadRank b.prioridad ≤ prioridadRank a.prioridad))

/-- recomendaciones.sort(key=..., reverse=True): stable descending by
(impacto, priority rank). -/
def sortRecs (l : List Recommendation) : List Recommendation :=
  stableSort recKeyGe l

/-- The due-soon alert block of generate_recommendations. -/
def rec_por_vencer (cuentas : List CuentaServicio) (now : PyDateTime) :
    List Recommendation :=
  let cpv := get_cuentas_por_vencer cuentas now
  if cpv.isEmpty then []
  else
    [{ tipo := "alerta"
       titulo := tituloPorVencer cpv.length
       descripcion := "Tienes " ++ toString cpv.length ++
         " cuenta(s) que vencen pronto por un total de $" ++
         fmtComma0 (cpv.map fun c => c.monto).sum ++ "."
       impacto := 80
       accion := "Revisar y pagar cuentas pendientes"
       prioridad := "alta" }]

/-- The cutoff-risk alert block of generate_recommendations. -/
def rec_riesgo_corte (cuentas : List CuentaServicio) (now : PyDateTime) :
    List Recommendation :=
  let crc := get_cuentas_riesgo_corte cuentas now
  if crc.isEmpty then []
  else
    [{ tipo := "alerta"
       titulo := tituloRiesgo crc.length
       descripcion := "Las siguientes cuentas están próximas al corte: " ++
         String.intercalate ", " (crc.map fun c => c.tipo_servicio.value) ++ "."
       impacto := 100
       accion := "Pagar inmediatamente para evitar corte"
       prioridad := "alta" }]

/-- The optimization-opportunities block of generate_recommendations. -/
def rec_optimizacion (cuentas : List CuentaServicio) : List Recommendation :=
  match analyze_optimization_opportunities cuentas with
  | none => []
  | some o =>
    [{ tipo := "optimizacion", titulo := tituloOptimizacion
       descripcion := o.descripcion, impacto := o.impacto
       accion := o.accion, prioridad := "media" }]

/-- The payment-consistency block of generate_recommendations. -/
def rec_consistencia (cuentas : List CuentaServicio) : List Recommendation :=
  match analyze_payment_consistency cuentas with
  | none => []
  | some o =>
    [{ tipo := "optimizacion", titulo := tituloConsistencia
       descripcion := o.descripcion, impacto := o.impacto
       accion := o.accion, prioridad := "baja" }]

/-- RecommendationService.generate_recommendations of
recommendation_service.py, with datetime.now() passed explicitly: the
per-type trend/saving/seasonal recommendations, then the due-soon
alert, the cutoff-risk alert, the optimization note and the
consistency note, sorted by descending (impact, priority).  On an
empty account list analyze_spending_patterns reports an error and the
function returns no recommendations. -/
def generate_recommendations (cuentas : List CuentaServicio)
    (now : PyDateTime) : List Recommendation :=
  if cuentas.isEmpty then []
  else
    sortRecs
      (((analisis_por_tipo cuentas).flatMap fun p => recs_tendencia p.1 p.2) ++
        rec_por_vencer cuentas now ++ rec_riesgo_corte cuentas now ++
        rec_optimizacion cuentas ++ rec_consistencia cuentas)
end AI

/-! ## Claims -/

/-- Spec-side count of the successfully extracted OCR fields: a
present positive amount, a present issue date, a present due date, a
recognized service type (C9). -/
def camposExtraidos (monto : Option Rat) (fecha_emision fecha_vencimiento : Option PyDateTime)
    (tipo_servicio : Option GenB.TipoServicio) : Nat :=
  (if monto.elim false fun m => decide (0 < m) then 1 else 0) +
  (if fecha_emision.isSome then 1 else 0) +
  (if fecha_vencimiento.isSome then 1 else 0) +
  (if tipo_servicio.isSome then 1 else 0)

/-- Claim C3: for every Generation-A account and instant, get_estado
is Paid exactly on the paid flag; else Overdue exactly when now is
after the due date; else Cutoff-risk exactly when a cutoff date exists
and now is on or after it; else Pending.  In particular a paid account
is Paid regardless of dates, and an unpaid account with a future due
date but a past-or-current cutoff date is Cutoff-risk. -/
theorem claim_C3_get_estado (c : GenA.CuentaServicio) (now : PyDateTime) :
    (GenA.get_estado c now = some .PAGADO ↔ c.pagado = true) ∧
    (GenA.get_estado c now = some .VENCIDO ↔
      c.pagado = false ∧
        ∃ venc, c.fecha_vencimiento = some venc ∧ venc.t < now.t) ∧
    (GenA.get_estado c now = some .EN_RIESGO_CORTE ↔
      c.pagado = false ∧
        ∃ venc, c.fecha_vencimiento = some venc ∧ ¬ venc.t < now.t ∧
          ∃ corte, c.fecha_corte = some corte ∧ corte.t ≤ now.t) ∧
    (GenA.get_estado c now = some .PENDIENTE ↔
      c.pagado = false ∧
        ∃ venc, c.fecha_vencimiento = some venc ∧ ¬ venc.t < now.t ∧
          ∀ corte, c.fecha_corte = some corte → now.t < corte.t) := by
  unfold GenA.get_estado
  rcases hp : c.pagado <;>
    rcases hv : c.fecha_vencimiento with _ | venc <;>
      rcases hc : c.fecha_corte with _ | corte <;>
        simp only [PyDateTime.lt, PyDateTime.le] <;>
          split_ifs <;> simp_all

/-- Claim C7: the Generation-A free-text search returns exactly the
stored accounts whose description, observations or service-type label
case-insensitively contains the term as a substring. -/
theorem claim_C7_buscar_cuentas (store : List GenA.CuentaServicio)
    (termino : String) (cuenta : GenA.CuentaServicio) :
    cuenta ∈ GenA.buscar_cuentas store termino ↔
      cuenta ∈ store ∧
        (GenA.pyIn (GenA.pyLower termino) (GenA.pyLower cuenta.descripcion) ∨
         GenA.pyIn (GenA.pyLower termino) (GenA.pyLower cuenta.observaciones) ∨
         GenA.pyIn (GenA.pyLower termino) (GenA.pyLower cuenta.tipo_servicio.value)) := by
  simp [GenA.buscar_cuentas, List.mem_filter, Bool.or_eq_true, decide_eq_true_eq,
    or_assoc]

/-- Claim C9: the OCR confidence is the number of successfully
extracted fields over 4, as a percentage; in particular a positive
amount and an issue date with no due date and no service type give
exactly 50. -/
theorem claim_C9_calculate_confidence :
    (∀ (text : String) (monto : Option Rat)
        (fecha_emision fecha_vencimiento : Option PyDateTime)
        (tipo_servicio : Option GenB.TipoServicio),
      AI.calculate_confidence text monto fecha_emision fecha_vencimiento tipo_servicio =
        ((camposExtraidos monto fecha_emision fecha_vencimiento tipo_servicio : Rat) / 4) * 100) ∧
    (∀ (text : String) (m : Rat) (d : PyDateTime), 0 < m →
      AI.calculate_confidence text (some m) (some d) none none = 50) := by
  constructor
  · intro text monto fe fv ts
    unfold AI.calculate_confidence camposExtraidos
    rcases monto with _ | m <;> rcases fe with _ | fe <;>
      rcases fv with _ | fv <;> rcases ts with _ | ts <;>
        simp only [Option.elim, Option.isSome] <;>
          split_ifs <;> simp_all <;> try norm_num
    all_goals linarith
  · intro text m d hm
    unfold AI.calculate_confidence
    simp [hm]
    norm_num

/-- Witness for claim C9: a concrete extraction with a positive amount
and an issue date only scores exactly 50. -/
theorem claim_C9_witness :
    AI.calculate_confidence "BOLETA TOTAL: $12.500" (some 12500)
      (some ⟨0, 3⟩) none none = 50 :=
  claim_C9_calculate_confidence.2 "BOLETA TOTAL: $12.500" 12500 ⟨0, 3⟩ (by norm_num)

/-- Counterexample to claim C1: the Generation-A marcar_como_pagado is
NOT guarded by "not already paid"; a second call at a later instant
overwrites the payment timestamp set by the first call. -/
theorem claim_C1_counterexample :
    (GenA.marcar_como_pagado
      (GenA.marcar_como_pagado
        { fecha_emision := ⟨0, 1⟩, created_at := ⟨0, 1⟩, updated_at := ⟨0, 1⟩ }
        none ⟨0, 1⟩)
      none ⟨86400000000, 1⟩).fecha_pago ≠
    (GenA.marcar_como_pagado
      { fecha_emision := ⟨0, 1⟩, created_at := ⟨0, 1⟩, updated_at := ⟨0, 1⟩ }
      none ⟨0, 1⟩).fecha_pago := by
  decide

/-- Claim C1 as amended: the Generation-B marcar_como_pagado is
idempotent — a second call (any argument, any instant) leaves the
whole entity, including the paid flag, the payment timestamp and the
change history, exactly as after the first call, because the mutation
is guarded by "not already paid".  The Generation-A version is
unguarded: after a second call the paid flag is still set but the
payment timestamp has been overwritten with the second call's argument
or clock. -/
theorem claim_C1_amended (c : GenB.CuentaServicio) (cA : GenA.CuentaServicio)
    (a1 a2 : Option PyDateTime) (t1 t2 : PyDateTime) :
    (GenB.marcar_como_pagado (GenB.marcar_como_pagado c a1 t1) a2 t2 =
      GenB.marcar_como_pagado c a1 t1) ∧
    ((GenA.marcar_como_pagado (GenA.marcar_como_pagado cA a1 t1) a2 t2).pagado = true) ∧
    ((GenA.marcar_como_pagado (GenA.marcar_como_pagado cA a1 t1) a2 t2).fecha_pago =
      some (a2.getD t2)) := by
  refine ⟨?_, rfl, rfl⟩
  unfold GenB.marcar_como_pagado
  by_cases h : c.pagado <;> simp [h]

/-- Claim C5 divergence: obtener_cuentas_vencidas_hoy selects the
pending accounts with dias_para_vencer = 0, and dias_para_vencer is
clamped at 0, so an unpaid account whose due date is two days in the
past (and not today) is returned by the "due exactly today" query. -/
theorem claim_C5_code_divergence :
    (GenB.obtener_cuentas_vencidas_hoy
      [{ id := "luz-01", tipo_servicio := .LUZ, fecha_emision := ⟨0, 1⟩,
         fecha_vencimiento := ⟨691200000000, 1⟩, monto := 10000,
         descripcion := "Luz enero" }]
      ⟨864000000000, 1⟩ =
      [{ id := "luz-01", tipo_servicio := .LUZ, fecha_emision := ⟨0, 1⟩,
         fecha_vencimiento := ⟨691200000000, 1⟩, monto := 10000,
         descripcion := "Luz enero" }]) ∧
    (691200000000 : Int) < 864000000000 ∧
    PyDateTime.dateOf ⟨691200000000, 1⟩ ≠ PyDateTime.dateOf ⟨864000000000, 1⟩ := by
  refine ⟨by decide, by decide, by decide⟩

/-- Claim C6 divergence: in get_recordatorios_diarios an unpaid
account five days past due (and not due today) satisfies the due-soon
window test (a negative day difference is at most the window), so it
lands in the vencen_proximamente bucket and the vencidas bucket stays
empty, even though the account is overdue (esta_vencida). -/
theorem claim_C6_code_divergence :
    (GenB.get_recordatorios_diarios 7
      [{ id := "luz-02", tipo_servicio := .LUZ, fecha_emision := ⟨0, 1⟩,
         fecha_vencimiento := ⟨432000000000, 1⟩, monto := 9990,
         descripcion := "Luz febrero" }]
      ⟨864000000000, 1⟩).vencen_proximamente =
      [{ id := "luz-02", tipo_servicio := .LUZ, fecha_emision := ⟨0, 1⟩,
         fecha_vencimiento := ⟨432000000000, 1⟩, monto := 9990,
         descripcion := "Luz febrero" }] ∧
    (GenB.get_recordatorios_diarios 7
      [{ id := "luz-02", tipo_servicio := .LUZ, fecha_emision := ⟨0, 1⟩,
         fecha_vencimiento := ⟨432000000000, 1⟩, monto := 9990,
         descripcion := "Luz febrero" }]
      ⟨864000000000, 1⟩).vencidas = [] ∧
    GenB.esta_vencida
      { id := "luz-02", tipo_servicio := .LUZ, fecha_emision := ⟨0, 1⟩,
        fecha_vencimiento := ⟨432000000000, 1⟩, monto := 9990,
        descripcion := "Luz febrero" }
      ⟨864000000000, 1⟩ = true := by
  refine ⟨by decide, by decide, by decide⟩

/-- Equality of Except results is decidable (used to evaluate the
embedded fallible constructors on concrete inputs). -/
instance {e a : Type} [DecidableEq e] [DecidableEq a] : DecidableEq (Except e a) :=
  fun x y =>
    match x, y with
    | .error u, .error v =>
      if h : u = v then isTrue (by rw [h]) else isFalse (by simp_all)
    | .ok u, .ok v =>
      if h : u = v then isTrue (by rw [h]) else isFalse (by simp_all)
    | .error _, .ok _ => isFalse (by simp)
    | .ok _, .error _ => isFalse (by simp)

/-- A chain of if-then-some collapses to none exactly when the guard
fails and the tail collapses to none. -/
lemma ite_some_none_iff {c : Prop} [Decidable c] {s : String} {r : Option String} :
    (if c then some s else r) = none ↔ ¬ c ∧ r = none := by
  split_ifs <;> simp_all

/-! ### Claim C2: first-error construction vs accumulating validator -/

lemma validar_monto_none_iff (monto : Rat) :
    GenB.validar_monto monto = none ↔ ¬ monto ≤ 0 ∧ ¬ 10000000 < monto := by
  unfold GenB.validar_monto
  split_ifs <;> simp_all

lemma validar_fechas_none_iff (fe fv now : PyDateTime) :
    GenB.validar_fechas fe fv now = none ↔
      ¬ fv.t ≤ fe.t ∧ ¬ (now.addDays 365).t < fe.t ∧
        ¬ fe.t < (now.addDays (-3650)).t := by
  unfold GenB.validar_fechas
  split_ifs <;> simp_all

lemma validar_lectura_none_iff (lect : Option PyDateTime) (fe : PyDateTime) :
    GenB.validar_fecha_proxima_lectura lect fe = none ↔
      ¬ (lect.elim false fun l => decide (l.t < fe.t)) = true := by
  unfold GenB.validar_fecha_proxima_lectura
  split_ifs <;> simp_all

lemma validar_corte_none_iff (corte : Option PyDateTime) (fe fv : PyDateTime) :
    GenB.validar_fecha_corte corte fe fv = none ↔
      ¬ (corte.elim false fun f => decide (f.t < fe.t)) = true ∧
        ¬ (corte.elim false fun f => decide ((fv.addDays 30).t < f.t)) = true := by
  unfold GenB.validar_fecha_corte
  split_ifs <;> simp_all

lemma validar_descripcion_none_iff (desc : String) :
    GenB.validar_descripcion desc = none ↔
      ¬ (desc = "" ∨ pyStrip desc = "") ∧ ¬ 500 < (pyStrip desc).length ∧
        ¬ GenB.contienePeligrosos desc = true := by
  unfold GenB.validar_descripcion
  split_ifs <;> simp_all

lemma validar_observaciones_none_iff (obs : String) :
    GenB.validar_observaciones obs = none ↔
      ¬ 1000 < obs.length ∧ ¬ GenB.contienePeligrosos obs = true := by
  unfold GenB.validar_observaciones
  split_ifs <;> simp_all

set_option maxHeartbeats 1000000 in
lemma cuenta_checks_none_iff (monto : Rat) (fe fv : PyDateTime)
    (lect corte : Option PyDateTime) (desc obs : String) (now : PyDateTime) :
    GenB.cuenta_checks monto fe fv lect corte desc obs now = none ↔
      (¬ monto ≤ 0 ∧ ¬ 10000000 < monto ∧
       ¬ fv.t ≤ fe.t ∧ ¬ (now.addDays 365).t < fe.t ∧
       ¬ fe.t < (now.addDays (-3650)).t ∧
       ¬ (lect.elim false fun l => decide (l.t < fe.t)) = true ∧
       ¬ (corte.elim false fun f => decide (f.t < fe.t)) = true ∧
       ¬ (corte.elim false fun f => decide ((fv.addDays 30).t < f.t)) = true ∧
       ¬ (desc = "" ∨ pyStrip desc = "") ∧ ¬ 500 < (pyStrip desc).length ∧
       ¬ GenB.contienePeligrosos desc = true ∧
       ¬ 1000 < obs.length ∧ ¬ GenB.contienePeligrosos obs = true) := by
  unfold GenB.cuenta_checks
  simp only [ite_some_none_iff, eq_self_iff_true, and_true]

lemma mk_ok_iff_checks_none (id : String) (tipo : GenB.TipoServicio)
    (fe fv : PyDateTime) (monto : Rat) (desc : String) (pagado : Bool)
    (fp : Option PyDateTime) (obs : String) (lect corte : Option PyDateTime)
    (hist : Option (List GenB.HistorialCambio)) (now : PyDateTime) :
    (∃ c, GenB.CuentaServicio.mk? id tipo fe fv monto desc pagado fp obs
        lect corte hist now = .ok c) ↔
      GenB.cuenta_checks monto fe fv lect corte desc obs now = none := by
  unfold GenB.CuentaServicio.mk?
  cases h : GenB.cuenta_checks monto fe fv lect corte desc obs now <;> simp [h]

/-- Counterexample to claim C2: an input violating two invariants
(non-positive amount AND blank description) is rejected at
construction with the amount message alone; the message does not
mention (contain) the violated description rule, so the construction
error does not enumerate every violated rule. -/
theorem claim_C2_counterexample :
    (GenB.CuentaServicio.mk? "luz-03" .LUZ ⟨0, 1⟩ ⟨86400000000, 1⟩ 0 ""
      false none "" none none none ⟨0, 1⟩ =
      .error "El monto debe ser mayor a 0") ∧
    GenB.validar_descripcion "" = some "La descripción no puede estar vacía" ∧
    ¬ GenA.pyIn "La descripción no puede estar vacía"
        "El monto debe ser mayor a 0" := by
  refine ⟨by decide, by decide, by decide⟩

/-- Claim C2 as amended: constructing a Generation-B account fails
exactly when some invariant is violated (construction succeeds iff the
accumulating validator validar_cuenta_completa reports no error), but
the construction raises only the FIRST violated check's message — in
particular a non-positive amount always yields exactly the amount
message, whatever else is violated.  Accumulation of every violated
rule happens only in the separate validar_cuenta_completa. -/
theorem claim_C2_amended (id : String) (tipo : GenB.TipoServicio)
    (fe fv : PyDateTime) (monto : Rat) (desc : String) (pagado : Bool)
    (fp : Option PyDateTime) (obs : String) (lect corte : Option PyDateTime)
    (hist : Option (List GenB.HistorialCambio)) (now : PyDateTime) :
    ((∃ c, GenB.CuentaServicio.mk? id tipo fe fv monto desc pagado fp obs
        lect corte hist now = .ok c) ↔
      GenB.validar_cuenta_completa tipo fe fv monto desc obs lect corte now = []) ∧
    (monto ≤ 0 →
      GenB.CuentaServicio.mk? id tipo fe fv monto desc pagado fp obs
        lect corte hist now = .error "El monto debe ser mayor a 0") := by
  constructor
  · rw [mk_ok_iff_checks_none]
    have hnil : GenB.validar_cuenta_completa tipo fe fv monto desc obs lect corte now = [] ↔
        (GenB.validar_monto monto = none ∧
         GenB.validar_fechas fe fv now = none ∧
         GenB.validar_fecha_proxima_lectura lect fe = none ∧
         GenB.validar_fecha_corte corte fe fv = none ∧
         GenB.validar_descripcion desc = none ∧
         GenB.validar_observaciones obs = none) := by
      simp [GenB.validar_cuenta_completa, List.filterMap_eq_nil_iff]
    rw [hnil, validar_monto_none_iff, validar_fechas_none_iff,
      validar_lectura_none_iff, validar_corte_none_iff,
      validar_descripcion_none_iff, validar_observaciones_none_iff,
      cuenta_checks_none_iff]
    tauto
  · intro h
    unfold GenB.CuentaServicio.mk? GenB.cuenta_checks
    simp [h]

/-- Witness for claim C2: a fully valid concrete input constructs
successfully and the accumulating validator agrees (empty error list);
a concrete non-positive amount yields exactly the amount message. -/
theorem claim_C2_witness :
    ((∃ c, GenB.CuentaServicio.mk? "luz-04" .LUZ ⟨0, 1⟩ ⟨86400000000, 1⟩ 15000
        "Luz marzo" false none "" none none none ⟨0, 1⟩ = .ok c) ↔
      GenB.validar_cuenta_completa .LUZ ⟨0, 1⟩ ⟨86400000000, 1⟩ 15000
        "Luz marzo" "" none none ⟨0, 1⟩ = []) ∧
    ((0 : Rat) ≤ 0 ∧
      GenB.CuentaServicio.mk? "luz-05" .LUZ ⟨0, 1⟩ ⟨86400000000, 1⟩ 0
        "Luz abril" false none "" none none none ⟨0, 1⟩ =
        .error "El monto debe ser mayor a 0") :=
  ⟨(claim_C2_amended "luz-04" .LUZ ⟨0, 1⟩ ⟨86400000000, 1⟩ 15000 "Luz marzo"
      false none "" none none none ⟨0, 1⟩).1,
   ⟨le_refl 0,
    (claim_C2_amended "luz-05" .LUZ ⟨0, 1⟩ ⟨86400000000, 1⟩ 0 "Luz abril"
      false none "" none none none ⟨0, 1⟩).2 (le_refl 0)⟩⟩

/-! ### Claim C10: all-or-nothing Generation-B load -/

lemma cargar_go_none_of_bad (now : PyDateTime) (records : List GenB.RecordB)
    (acc : List (String × GenB.CuentaServicio))
    (h : ∃ r ∈ records, ∃ e,
      GenB.deserializar_cuenta (GenB.sanitizar_record r) now = .error e) :
    GenB.cargar_go now acc records = none := by
  induction records generalizing acc with
  | nil => simp at h
  | cons r rest ih =>
    obtain ⟨r0, hr0, e, he⟩ := h
    unfold GenB.cargar_go
    rcases List.mem_cons.mp hr0 with h0 | h0
    · subst h0
      rw [he]
    · cases hd : GenB.deserializar_cuenta (GenB.sanitizar_record r) now with
      | error _ => rfl
      | ok c => exact ih _ ⟨r0, h0, e, he⟩

/-- Claim C10: the Generation-B repository load is all-or-nothing — if
deserializing any single stored record raises (after sanitization),
the whole load is abandoned and the in-memory store becomes empty. -/
theorem claim_C10_cargar_all_or_nothing (records : List GenB.RecordB)
    (now : PyDateTime)
    (h : ∃ r ∈ records, ∃ e,
      GenB.deserializar_cuenta (GenB.sanitizar_record r) now = .error e) :
    GenB.cargar_cuentas records now = [] := by
  unfold GenB.cargar_cuentas
  rw [cargar_go_none_of_bad now records [] h]
  rfl

/-- A well-formed stored record (claim C10 witness). -/
def recC10good : GenB.RecordB :=
  { id := "luz-06", tipo_servicio := "Luz", fecha_emision := ⟨0, 1⟩,
    fecha_vencimiento := ⟨86400000000, 1⟩, monto := 5000,
    descripcion := "Luz mayo", pagado := false, fecha_pago := none,
    observaciones := "", fecha_proxima_lectura := none, fecha_corte := none,
    historial := [] }

/-- A stored record whose issue date lies 3651 days before the load
instant, so the entity's construction-time validation rejects it at
load (claim C10 witness). -/
def recC10bad : GenB.RecordB :=
  { id := "luz-07", tipo_servicio := "Luz",
    fecha_emision := ⟨-315446400000000, 1⟩,
    fecha_vencimiento := ⟨0, 1⟩, monto := 5000,
    descripcion := "Luz antigua", pagado := false, fecha_pago := none,
    observaciones := "", fecha_proxima_lectura := none, fecha_corte := none,
    historial := [] }

/-- Witness for claim C10: a store holding one well-formed record and
one record whose issue date is more than 10 years old loads to the
empty store at time 0 — the one bad record discards every stored
account. -/
theorem claim_C10_witness :
    (∃ r ∈ [recC10good, recC10bad], ∃ e,
      GenB.deserializar_cuenta (GenB.sanitizar_record r) ⟨0, 1⟩ = .error e) ∧
    GenB.cargar_cuentas [recC10good, recC10bad] ⟨0, 1⟩ = [] :=
  ⟨⟨recC10bad, by simp,
    ⟨"La fecha de emisión no puede ser más antigua de 10 años", by decide⟩⟩,
   claim_C10_cargar_all_or_nothing [recC10good, recC10bad] ⟨0, 1⟩
    ⟨recC10bad, by simp,
     ⟨"La fecha de emisión no puede ser más antigua de 10 años", by decide⟩⟩⟩

/-! ### Claim C4: serialize / parse round trip -/

lemma exceptBind_ok {e a b : Type} (x : a) (f : a → Except e b) :
    (Except.ok x : Except e a) >>= f = f x := rfl

lemma fromValueA_value (t : GenA.TipoServicio) :
    GenA.TipoServicio.fromValue t.value = some t := by
  cases t <;> rfl

lemma fromValueB_value (t : GenB.TipoServicio) :
    GenB.TipoServicio.fromValue t.value = some t := by
  cases t <;> rfl

lemma fromValueCambio_value (t : GenB.TipoCambio) :
    GenB.TipoCambio.fromValue t.value = some t := by
  cases t <;> rfl

lemma deserializar_serializar_historial (h : GenB.HistorialCambio)
    (hne : h.descripcion ≠ "") :
    GenB.deserializar_historial (GenB.serializar_historial h) = .ok h := by
  unfold GenB.deserializar_historial GenB.serializar_historial
  rw [fromValueCambio_value]
  unfold GenB.HistorialCambio.mk?
  simp [hne]

lemma mapDeserializar_serializar (hs : List GenB.HistorialCambio)
    (hne : ∀ h ∈ hs, h.descripcion ≠ "") :
    GenB.mapDeserializarHist GenB.deserializar_historial
      (hs.map GenB.serializar_historial) = .ok hs := by
  induction hs with
  | nil => rfl
  | cons h rest ih =>
    have h1 := deserializar_serializar_historial h (hne h (List.mem_cons_self h rest))
    have h2 := ih fun x hx => hne x (List.mem_cons_of_mem h hx)
    simp only [List.map_cons, GenB.mapDeserializarHist, h1, h2, exceptBind_ok]
    rfl

/-- Claim C4: for every valid Service Account, serializing to the
persisted record shape and parsing the result back yields an account
equal to the original in id, service type, amount, issue date, due
date, cutoff date, payment date and paid flag — in Generation A via
to_dict / from_dict, and in Generation B via the repository
serializer / deserializer (where validity means the construction-time
checks pass at the load instant and every history entry carries a
nonempty description, so the re-validation at parse time succeeds). -/
theorem claim_C4_round_trip :
    (∀ (c : GenA.CuentaServicio) (now : PyDateTime),
      GenA.validar_cuenta c = [] →
      ∃ c2, GenA.from_dict (GenA.to_dict c) now = some c2 ∧
        c2.id = c.id ∧ c2.tipo_servicio = c.tipo_servicio ∧ c2.monto = c.monto ∧
        c2.fecha_emision = c.fecha_emision ∧
        c2.fecha_vencimiento = c.fecha_vencimiento ∧
        c2.fecha_corte = c.fecha_corte ∧ c2.fecha_pago = c.fecha_pago ∧
        c2.pagado = c.pagado) ∧
    (∀ (c : GenB.CuentaServicio) (now : PyDateTime),
      GenB.cuenta_checks c.monto c.fecha_emision c.fecha_vencimiento
        none none c.descripcion c.observaciones now = none →
      (∀ h ∈ c.historial, h.descripcion ≠ "") →
      ∃ c2, GenB.deserializar_cuenta (GenB.serializar_cuenta c) now = .ok c2 ∧
        c2.id = c.id ∧ c2.tipo_servicio = c.tipo_servicio ∧ c2.monto = c.monto ∧
        c2.fecha_emision = c.fecha_emision ∧
        c2.fecha_vencimiento = c.fecha_vencimiento ∧
        c2.fecha_corte = c.fecha_corte ∧ c2.fecha_pago = c.fecha_pago ∧
        c2.pagado = c.pagado) := by
  constructor
  · intro c now _
    refine ⟨{ id := c.id, tipo_servicio := c.tipo_servicio,
              descripcion := c.descripcion, monto := c.monto,
              fecha_emision := c.fecha_emision,
              fecha_vencimiento := c.fecha_vencimiento,
              fecha_corte := c.fecha_corte, fecha_lectura_proxima := none,
              pagado := c.pagado, fecha_pago := c.fecha_pago,
              observaciones := c.observaciones, created_at := c.created_at,
              updated_at := c.updated_at },
            ?_, rfl, rfl, rfl, rfl, rfl, rfl, rfl, rfl⟩
    unfold GenA.from_dict GenA.to_dict
    rw [fromValueA_value]
    rfl
  · intro c now hval hhist
    have hmk : GenB.CuentaServicio.mk? c.id c.tipo_servicio c.fecha_emision
        c.fecha_vencimiento c.monto c.descripcion c.pagado none
        c.observaciones none none none now =
        .ok { id := c.id, tipo_servicio := c.tipo_servicio,
              fecha_emision := c.fecha_emision,
              fecha_vencimiento := c.fecha_vencimiento, monto := c.monto,
              descripcion := c.descripcion, pagado := c.pagado,
              fecha_pago := none, observaciones := c.observaciones,
              fecha_proxima_lectura := none, fecha_corte := none,
              historial := [] } := by
      unfold GenB.CuentaServicio.mk?
      rw [hval]
      rfl
    have hm := mapDeserializar_serializar c.historial hhist
    refine ⟨{ id := c.id, tipo_servicio := c.tipo_servicio,
              fecha_emision := c.fecha_emision,
              fecha_vencimiento := c.fecha_vencimiento, monto := c.monto,
              descripcion := c.descripcion, pagado := c.pagado,
              fecha_pago := c.fecha_pago, observaciones := c.observaciones,
              fecha_proxima_lectura := c.fecha_proxima_lectura,
              fecha_corte := c.fecha_corte,
              historial :=
                match c.historial.map GenB.serializar_historial with
                | [] => []
                | hs =>
                  match GenB.mapDeserializarHist GenB.deserializar_historial hs with
                  | .ok l => l
                  | .error _ => [] },
            ?_, rfl, rfl, rfl, rfl, rfl, rfl, rfl, rfl⟩
    unfold GenB.deserializar_cuenta GenB.serializar_cuenta
    rw [fromValueB_value]
    simp only [exceptBind_ok, hmk]
    cases hcl : c.historial with
    | nil => simp only [hcl, List.map_nil, exceptBind_ok]; rfl
    | cons h rest =>
      rw [hcl] at hm
      simp only [List.map_cons] at hm
      simp only [hcl, List.map_cons, hm, exceptBind_ok]
      rfl

/-- A concrete valid Generation-A account (claim C4 witness). -/
def cC4a : GenA.CuentaServicio :=
  { id := some "agua-01", tipo_servicio := .AGUA, descripcion := "Agua enero",
    monto := 12000, fecha_emision := ⟨0, 1⟩,
    fecha_vencimiento := some ⟨1728000000000, 1⟩,
    fecha_corte := some ⟨2592000000000, 1⟩, fecha_lectura_proxima := none,
    pagado := true, fecha_pago := some ⟨864000000000, 1⟩,
    observaciones := "pagada en caja", created_at := ⟨0, 1⟩,
    updated_at := ⟨0, 1⟩ }

/-- The change-history entry of the concrete Generation-B account of
the claim C4 witness. -/
def histC4 : GenB.HistorialCambio :=
  { id := "hist-1", cuenta_id := "gas-01", tipo_cambio := .PAGO,
    fecha_cambio := ⟨864000000000, 1⟩,
    descripcion := "Cuenta marcada como pagada",
    datos_anteriores := some [("pagado", .vBool false)],
    datos_nuevos := some [("pagado", .vBool true)] }

/-- A concrete valid Generation-B account with one history entry
(claim C4 witness). -/
def cC4b : GenB.CuentaServicio :=
  { id := "gas-01", tipo_servicio := .GAS, fecha_emision := ⟨0, 1⟩,
    fecha_vencimiento := ⟨1728000000000, 1⟩, monto := 30000,
    descripcion := "Gas enero", pagado := true,
    fecha_pago := some ⟨864000000000, 1⟩, observaciones := "",
    fecha_proxima_lectura := none, fecha_corte := some ⟨2592000000000, 1⟩,
    historial := [histC4] }

/-- Witness for claim C4: both round trips hold at concrete valid
accounts (all hypotheses discharged by evaluation). -/
theorem claim_C4_witness :
    (∃ c2, GenA.from_dict (GenA.to_dict cC4a) ⟨0, 1⟩ = some c2 ∧
      c2.id = cC4a.id ∧ c2.tipo_servicio = cC4a.tipo_servicio ∧
      c2.monto = cC4a.monto ∧ c2.fecha_emision = cC4a.fecha_emision ∧
      c2.fecha_vencimiento = cC4a.fecha_vencimiento ∧
      c2.fecha_corte = cC4a.fecha_corte ∧ c2.fecha_pago = cC4a.fecha_pago ∧
      c2.pagado = cC4a.pagado) ∧
    (∃ c2, GenB.deserializar_cuenta (GenB.serializar_cuenta cC4b) ⟨0, 1⟩ = .ok c2 ∧
      c2.id = cC4b.id ∧ c2.tipo_servicio = cC4b.tipo_servicio ∧
      c2.monto = cC4b.monto ∧ c2.fecha_emision = cC4b.fecha_emision ∧
      c2.fecha_vencimiento = cC4b.fecha_vencimiento ∧
      c2.fecha_corte = cC4b.fecha_corte ∧ c2.fecha_pago = cC4b.fecha_pago ∧
      c2.pagado = cC4b.pagado) :=
  ⟨claim_C4_round_trip.1 cC4a ⟨0, 1⟩ (by decide),
   claim_C4_round_trip.2 cC4b ⟨0, 1⟩ (by decide) (by decide)⟩

/-! ### Claim C8: recommendation thresholds -/

/-- Lookup in an insertion-ordered association list (the Python dict
read d[k], used to reason about groupByKey). -/
def listLookup {κ β : Type} [DecidableEq κ] (k : κ) :
    List (κ × β) → Option β
  | [] => none
  | p :: rest => if p.1 = k then some p.2 else listLookup k rest

/-- A list as an optional nonempty list (d or None idiom). -/
def nonNil {γ : Type} : List γ → Option (List γ)
  | [] => none
  | l => some l

lemma listLookup_map_update {κ α : Type} [DecidableEq κ]
    (acc : List (κ × List α)) (k k0 : κ) (x : α) :
    listLookup k (acc.map fun p => if p.1 = k0 then (p.1, p.2 ++ [x]) else p) =
      if k = k0 then (listLookup k acc).map (· ++ [x]) else listLookup k acc := by
  induction acc with
  | nil => by_cases hk : k = k0 <;> simp [listLookup, hk]
  | cons p rest ih =>
    by_cases hp0 : p.1 = k0
    · by_cases hpk : p.1 = k
      · have hk : k = k0 := by rw [← hpk, hp0]
        simp [listLookup, hp0, hpk, hk]
      · have hk : ¬ k = k0 := fun h => hpk (by rw [hp0, h])
        have hk0 : ¬ k0 = k := fun h => hk h.symm
        simp [listLookup, hp0, hpk, hk, hk0, ih]
    · by_cases hpk : p.1 = k
      · have hk : ¬ k = k0 := fun h => hp0 (by rw [hpk, h])
        simp [listLookup, hp0, hpk, hk]
      · simp [listLookup, hp0, hpk, ih]

lemma listLookup_append_single {κ β : Type} [DecidableEq κ]
    (acc : List (κ × β)) (k k0 : κ) (v : β) :
    listLookup k (acc ++ [(k0, v)]) =
      match listLookup k acc with
      | some b => some b
      | none => if k0 = k then some v else none := by
  induction acc with
  | nil => simp [listLookup]
  | cons p rest ih =>
    by_cases hpk : p.1 = k <;> simp [listLookup, hpk, ih]

lemma listLookup_none_of_any_false {κ α : Type} [DecidableEq κ]
    (acc : List (κ × List α)) (k0 : κ)
    (h : acc.any (fun p => decide (p.1 = k0)) = false) :
    listLookup k0 acc = none := by
  induction acc with
  | nil => rfl
  | cons p rest ih =>
    simp only [List.any_cons, Bool.or_eq_false_iff] at h
    have hp : ¬ p.1 = k0 := by simpa using h.1
    simp [listLookup, hp, ih h.2]

lemma listLookup_isSome_of_any_true {κ α : Type} [DecidableEq κ]
    (acc : List (κ × List α)) (k0 : κ)
    (h : acc.any (fun p => decide (p.1 = k0)) = true) :
    ∃ b, listLookup k0 acc = some b := by
  induction acc with
  | nil => simp at h
  | cons p rest ih =>
    by_cases hp : p.1 = k0
    · exact ⟨p.2, by simp [listLookup, hp]⟩
    · simp only [List.any_cons, Bool.or_eq_true] at h
      rcases h with h | h
      · exact absurd (of_decide_eq_true h) hp
      · obtain ⟨b, hb⟩ := ih h
        exact ⟨b, by simp [listLookup, hp, hb]⟩

lemma listLookup_keyInsert {κ α : Type} [DecidableEq κ]
    (acc : List (κ × List α)) (k k0 : κ) (x : α) :
    listLookup k (AI.keyInsert acc k0 x) =
      if k = k0 then some ((listLookup k0 acc).getD [] ++ [x])
      else listLookup k acc := by
  unfold AI.keyInsert
  by_cases hany : acc.any (fun p => decide (p.1 = k0)) = true
  · rw [if_pos hany, listLookup_map_update]
    by_cases hk : k = k0
    · obtain ⟨b, hb⟩ := listLookup_isSome_of_any_true acc k0 hany
      simp [hk, hb]
    · simp [hk]
  · have hfalse : acc.any (fun p => decide (p.1 = k0)) = false := by
      revert hany
      cases acc.any (fun p => decide (p.1 = k0)) <;> simp
    rw [if_neg hany, listLookup_append_single]
    have hnone := listLookup_none_of_any_false acc k0 hfalse
    by_cases hk : k = k0
    · subst hk
      simp [hnone]
    · have hk0 : ¬ k0 = k := fun h => hk h.symm
      cases hlk : listLookup k acc <;> simp [hk, hk0, hlk]

lemma listLookup_groupGo {κ α : Type} [DecidableEq κ] (key : α → κ)
    (l : List α) (acc : List (κ × List α)) (k : κ) :
    listLookup k (l.foldl (fun a x => AI.keyInsert a (key x) x) acc) =
      match listLookup k acc with
      | some b => some (b ++ l.filter fun x => decide (key x = k))
      | none => nonNil (l.filter fun x => decide (key x = k)) := by
  induction l generalizing acc with
  | nil =>
    cases h : listLookup k acc <;> simp [h, nonNil]
  | cons x rest ih =>
    rw [List.foldl_cons, ih, listLookup_keyInsert]
    by_cases hx : key x = k
    · rw [if_pos hx.symm, hx]
      cases h : listLookup k acc with
      | some b => simp [h, List.filter_cons, hx, List.append_assoc]
      | none => simp [h, List.filter_cons, hx, nonNil]
    · have hk : ¬ k = key x := fun h => hx h.symm
      rw [if_neg hk]
      cases h : listLookup k acc <;>
        simp [h, List.filter_cons, hx]

lemma keys_keyInsert {κ α : Type} [DecidableEq κ]
    (acc : List (κ × List α)) (k0 : κ) (x : α) :
    (AI.keyInsert acc k0 x).map Prod.fst =
      if acc.any (fun p => decide (p.1 = k0)) = true then acc.map Prod.fst
      else acc.map Prod.fst ++ [k0] := by
  unfold AI.keyInsert
  split_ifs with h
  · rw [List.map_map]
    refine List.map_congr_left ?_
    intro p _
    by_cases hp : p.1 = k0 <;> simp [hp]
  · simp

lemma nodup_keys_keyInsert {κ α : Type} [DecidableEq κ]
    (acc : List (κ × List α)) (k0 : κ) (x : α)
    (h : (acc.map Prod.fst).Nodup) :
    ((AI.keyInsert acc k0 x).map Prod.fst).Nodup := by
  rw [keys_keyInsert]
  split_ifs with hany
  · exact h
  · have hnot : k0 ∉ acc.map Prod.fst := by
      intro hmem
      obtain ⟨p, hp, hfst⟩ := List.mem_map.mp hmem
      have : acc.any (fun p => decide (p.1 = k0)) = true :=
        List.any_eq_true.mpr ⟨p, hp, by simp [hfst]⟩
      exact hany this
    simp [List.nodup_append, h, hnot]

lemma nodup_keys_groupGo {κ α : Type} [DecidableEq κ] (key : α → κ)
    (l : List α) (acc : List (κ × List α))
    (h : (acc.map Prod.fst).Nodup) :
    ((l.foldl (fun a x => AI.keyInsert a (key x) x) acc).map Prod.fst).Nodup := by
  induction l generalizing acc with
  | nil => exact h
  | cons x rest ih =>
    rw [List.foldl_cons]
    exact ih _ (nodup_keys_keyInsert acc (key x) x h)

lemma nodup_keys_groupByKey {κ α : Type} [DecidableEq κ] (key : α → κ)
    (l : List α) : ((AI.groupByKey key l).map Prod.fst).Nodup :=
  nodup_keys_groupGo key l [] (by simp)

lemma listLookup_groupByKey {κ α : Type} [DecidableEq κ] (key : α → κ)
    (l : List α) (k : κ) :
    listLookup k (AI.groupByKey key l) =
      nonNil (l.filter fun x => decide (key x = k)) := by
  unfold AI.groupByKey
  rw [listLookup_groupGo]
  rfl

lemma listLookup_none_of_not_mem {κ β : Type} [DecidableEq κ]
    (A : List (κ × β)) (k : κ) (h : k ∉ A.map Prod.fst) :
    listLookup k A = none := by
  induction A with
  | nil => rfl
  | cons q rest ih =>
    simp only [List.map_cons, List.mem_cons, not_or] at h
    have hq : ¬ q.1 = k := fun hh => h.1 hh.symm
    simp [listLookup, hq, ih h.2]

lemma keys_filterMap_if {κ β γ : Type} [DecidableEq κ]
    (G : List (κ × β)) (cond : β → Prop) [DecidablePred cond] (f : β → γ) :
    ((G.filterMap fun q =>
        if cond q.2 then none else some (q.1, f q.2)).map Prod.fst).Sublist
      (G.map Prod.fst) := by
  induction G with
  | nil => simp
  | cons q rest ih =>
    rw [List.filterMap_cons]
    by_cases hc : cond q.2
    · simp only [hc, if_true, List.map_cons]
      exact ih.cons q.1
    · simp only [hc, if_false, List.map_cons]
      exact ih.cons₂ q.1

lemma listLookup_filterMap_if {κ β γ : Type} [DecidableEq κ]
    (G : List (κ × β)) (cond : β → Prop) [DecidablePred cond] (f : β → γ)
    (k : κ) (b : β)
    (hlk : listLookup k G = some b) (hc : ¬ cond b) :
    listLookup k (G.filterMap fun q =>
        if cond q.2 then none else some (q.1, f q.2)) = some (f b) := by
  induction G with
  | nil => simp [listLookup] at hlk
  | cons q rest ih =>
    rw [List.filterMap_cons]
    by_cases hq : q.1 = k
    · have hb : q.2 = b := by
        simpa [listLookup, hq] using hlk
      subst hb
      simp [hc, listLookup, hq]
    · have hlk' : listLookup k rest = some b := by
        simpa [listLookup, hq] using hlk
      by_cases hcq : cond q.2 <;> simp [hcq, listLookup, hq, ih hlk']

lemma filter_flatMap_unique {κ β : Type} [DecidableEq κ]
    (A : List (κ × β)) (f : κ → β → List AI.Recommendation)
    (p : AI.Recommendation → Bool) (label : κ)
    (hnd : (A.map Prod.fst).Nodup)
    (hz : ∀ q ∈ A, q.1 ≠ label → (f q.1 q.2).filter p = []) :
    (A.flatMap fun q => f q.1 q.2).filter p =
      match listLookup label A with
      | none => []
      | some b => (f label b).filter p := by
  induction A with
  | nil => simp [listLookup]
  | cons q rest ih =>
    rw [List.flatMap_cons, List.filter_append]
    have hnd' : q.1 ∉ rest.map Prod.fst ∧ (rest.map Prod.fst).Nodup := by
      rw [List.map_cons] at hnd
      exact List.nodup_cons.mp hnd
    by_cases hq : q.1 = label
    · have hnot : listLookup label rest = none := by
        apply listLookup_none_of_not_mem
        rw [← hq]
        exact hnd'.1
      have hrest : (rest.flatMap fun q => f q.1 q.2).filter p = [] := by
        rw [ih hnd'.2 fun q' hq' => hz q' (List.mem_cons_of_mem q hq'), hnot]
      rw [hrest, List.append_nil]
      simp [listLookup, hq]
    · rw [hz q (List.mem_cons_self q rest) hq, List.nil_append,
        ih hnd'.2 fun q' hq' => hz q' (List.mem_cons_of_mem q hq')]
      simp [listLookup, hq]

lemma stableInsert_perm {α : Type} (le : α → α → Bool) (x : α) (l : List α) :
    List.Perm (AI.stableInsert le x l) (x :: l) := by
  induction l with
  | nil => exact List.Perm.refl _
  | cons y ys ih =>
    unfold AI.stableInsert
    by_cases h : le x y
    · rw [if_pos h]
    · rw [if_neg h]
      exact (ih.cons y).trans (List.Perm.swap x y ys)

lemma stableSort_perm {α : Type} (le : α → α → Bool) (l : List α) :
    List.Perm (AI.stableSort le l) l := by
  induction l with
  | nil => exact List.Perm.refl _
  | cons x xs ih =>
    unfold AI.stableSort
    exact (stableInsert_perm le x _).trans (ih.cons x)

lemma string_ne_of_head {a b : String} (h : a.data.head? ≠ b.data.head?) :
    a ≠ b :=
  fun he => h (by rw [he])

lemma head_of_append (pre s : String) {c : Char}
    (h : pre.data.head? = some c) : (pre ++ s).data.head? = some c := by
  rw [String.data_append, List.head?_append, h]
  rfl

lemma titulo_ne_of_heads {a b : String} {c1 c2 : Char}
    (h1 : a.data.head? = some c1) (h2 : b.data.head? = some c2)
    (hc : c1 ≠ c2) : a ≠ b :=
  string_ne_of_head (by rw [h1, h2]; exact fun hh => hc (Option.some.inj hh))

lemma head_tituloIncremento (s : String) :
    (AI.tituloIncremento s).data.head? = some '⚠' :=
  head_of_append _ s rfl

lemma head_tituloAhorro (s : String) :
    (AI.tituloAhorro s).data.head? = some '✅' :=
  head_of_append _ s rfl

lemma head_tituloEstacional (s : String) :
    (AI.tituloEstacional s).data.head? = some '📅' :=
  head_of_append _ s rfl

lemma head_tituloPorVencer (n : Nat) :
    (AI.tituloPorVencer n).data.head? = some '📅' :=
  head_of_append _ _ (head_of_append _ _ rfl)

lemma head_tituloRiesgo (n : Nat) :
    (AI.tituloRiesgo n).data.head? = some '🚨' :=
  head_of_append _ _ (head_of_append _ _ rfl)

lemma head_tituloOptimizacion :
    AI.tituloOptimizacion.data.head? = some '💡' := rfl

lemma head_tituloConsistencia :
    AI.tituloConsistencia.data.head? = some '📊' := rfl

lemma tituloIncremento_inj {a b : String}
    (h : AI.tituloIncremento a = AI.tituloIncremento b) : a = b := by
  unfold AI.tituloIncremento at h
  have hd := congrArg String.data h
  rw [String.data_append, String.data_append] at hd
  exact String.ext (List.append_cancel_left hd)

lemma tituloAhorro_inj {a b : String}
    (h : AI.tituloAhorro a = AI.tituloAhorro b) : a = b := by
  unfold AI.tituloAhorro at h
  have hd := congrArg String.data h
  rw [String.data_append, String.data_append] at hd
  exact String.ext (List.append_cancel_left hd)

lemma filter_rec_estacional (k target : String)
    (mmaxo mmino : Option (Nat × Rat))
    (hne : AI.tituloEstacional k ≠ target) :
    (AI.rec_estacional k mmaxo mmino).filter
      (fun rc => rc.titulo == target) = [] := by
  cases mmaxo with
  | none => rfl
  | some mmax =>
    cases mmino with
    | none => rfl
    | some mmin =>
      simp only [AI.rec_estacional]
      split_ifs <;> simp [hne]

lemma filter_recs_tendencia_other (k label : String) (datos : AI.AnalisisTipo)
    (hk : k ≠ label) :
    ((AI.recs_tendencia k datos).filter
        (fun rc => rc.titulo == AI.tituloIncremento label) = []) ∧
    ((AI.recs_tendencia k datos).filter
        (fun rc => rc.titulo == AI.tituloAhorro label) = []) := by
  have hII : AI.tituloIncremento k ≠ AI.tituloIncremento label :=
    fun h => hk (tituloIncremento_inj h)
  have hAA : AI.tituloAhorro k ≠ AI.tituloAhorro label :=
    fun h => hk (tituloAhorro_inj h)
  have hAI : AI.tituloAhorro k ≠ AI.tituloIncremento label :=
    titulo_ne_of_heads (head_tituloAhorro k) (head_tituloIncremento label)
      (by decide)
  have hIA : AI.tituloIncremento k ≠ AI.tituloAhorro label :=
    titulo_ne_of_heads (head_tituloIncremento k) (head_tituloAhorro label)
      (by decide)
  have hEI : AI.tituloEstacional k ≠ AI.tituloIncremento label :=
    titulo_ne_of_heads (head_tituloEstacional k) (head_tituloIncremento label)
      (by decide)
  have hEA : AI.tituloEstacional k ≠ AI.tituloAhorro label :=
    titulo_ne_of_heads (head_tituloEstacional k) (head_tituloAhorro label)
      (by decide)
  unfold AI.recs_tendencia
  rw [List.filter_append, List.filter_append,
    filter_rec_estacional k _ _ _ hEI, filter_rec_estacional k _ _ _ hEA]
  constructor <;> (split_ifs <;> simp [hII, hAA, hAI, hIA])

lemma filter_recs_tendencia_rise (k : String) (datos : AI.AnalisisTipo)
    (h30 : datos.porcentaje_cambio = 30) :
    ∃ r, (AI.recs_tendencia k datos).filter
        (fun rc => rc.titulo == AI.tituloIncremento k) = [r] ∧
      r.tipo = "alerta" ∧ r.prioridad = "alta" := by
  have hEI : AI.tituloEstacional k ≠ AI.tituloIncremento k :=
    titulo_ne_of_heads (head_tituloEstacional k) (head_tituloIncremento k)
      (by decide)
  have h15 : (15 : Rat) < datos.porcentaje_cambio := by rw [h30]; norm_num
  have h25 : (25 : Rat) < datos.porcentaje_cambio := by rw [h30]; norm_num
  refine ⟨{ tipo := "alerta", titulo := AI.tituloIncremento k,
            descripcion := "El " ++ k ++ " ha aumentado un " ++
              GenB.fmt1 datos.porcentaje_cambio ++
              "% en el período analizado. Considera revisar tu consumo o buscar alternativas.",
            impacto := min 100 (datos.porcentaje_cambio * 2),
            accion := "Revisar consumo y buscar optimizaciones",
            prioridad := "alta" }, ?_, rfl, rfl⟩
  unfold AI.recs_tendencia
  rw [List.filter_append, filter_rec_estacional k _ _ _ hEI,
    if_pos h15, if_pos h25]
  simp

lemma filter_recs_tendencia_drop (k : String) (datos : AI.AnalisisTipo)
    (hle : datos.porcentaje_cambio ≤ -30) :
    ((AI.recs_tendencia k datos).filter
        (fun rc => rc.titulo == AI.tituloIncremento k) = []) ∧
    ∃ r, (AI.recs_tendencia k datos).filter
        (fun rc => rc.titulo == AI.tituloAhorro k) = [r] ∧
      r.tipo = "ahorro" ∧ r.prioridad = "baja" := by
  have hEI : AI.tituloEstacional k ≠ AI.tituloIncremento k :=
    titulo_ne_of_heads (head_tituloEstacional k) (head_tituloIncremento k)
      (by decide)
  have hEA : AI.tituloEstacional k ≠ AI.tituloAhorro k :=
    titulo_ne_of_heads (head_tituloEstacional k) (head_tituloAhorro k)
      (by decide)
  have hAI : AI.tituloAhorro k ≠ AI.tituloIncremento k :=
    titulo_ne_of_heads (head_tituloAhorro k) (head_tituloIncremento k)
      (by decide)
  have h15 : ¬ (15 : Rat) < datos.porcentaje_cambio := by
    intro h
    linarith
  have h10 : datos.porcentaje_cambio < -10 := by linarith
  constructor
  · unfold AI.recs_tendencia
    rw [List.filter_append, filter_rec_estacional k _ _ _ hEI,
      if_neg h15, if_pos h10]
    simp [hAI]
  · refine ⟨{ tipo := "ahorro", titulo := AI.tituloAhorro k,
              descripcion := "¡Excelente! El " ++ k ++ " ha disminuido un " ++
                GenB.fmt1 (abs datos.porcentaje_cambio) ++
                "%. Mantén estas buenas prácticas.",
              impacto := 50,
              accion := "Mantener hábitos de consumo eficiente",
              prioridad := "baja" }, ?_, rfl, rfl⟩
    unfold AI.recs_tendencia
    rw [List.filter_append, filter_rec_estacional k _ _ _ hEA,
      if_neg h15, if_pos h10]
    simp

lemma filter_rec_por_vencer (cuentas : List GenB.CuentaServicio)
    (now : PyDateTime) (target : String)
    (h : ∀ n : Nat, AI.tituloPorVencer n ≠ target) :
    (AI.rec_por_vencer cuentas now).filter
      (fun rc => rc.titulo == target) = [] := by
  simp only [AI.rec_por_vencer]
  split_ifs <;> simp [h _]

lemma filter_rec_riesgo_corte (cuentas : List GenB.CuentaServicio)
    (now : PyDateTime) (target : String)
    (h : ∀ n : Nat, AI.tituloRiesgo n ≠ target) :
    (AI.rec_riesgo_corte cuentas now).filter
      (fun rc => rc.titulo == target) = [] := by
  simp only [AI.rec_riesgo_corte]
  split_ifs <;> simp [h _]

lemma filter_rec_optimizacion (cuentas : List GenB.CuentaServicio)
    (target : String) (h : AI.tituloOptimizacion ≠ target) :
    (AI.rec_optimizacion cuentas).filter
      (fun rc => rc.titulo == target) = [] := by
  unfold AI.rec_optimizacion
  cases AI.analyze_optimization_opportunities cuentas <;> simp [h]

lemma filter_rec_consistencia (cuentas : List GenB.CuentaServicio)
    (target : String) (h : AI.tituloConsistencia ≠ target) :
    (AI.rec_consistencia cuentas).filter
      (fun rc => rc.titulo == target) = [] := by
  unfold AI.rec_consistencia
  cases AI.analyze_payment_consistency cuentas <;> simp [h]

lemma filter_generate_perm (cuentas : List GenB.CuentaServicio)
    (now : PyDateTime) (target : String) (hne : cuentas ≠ [])
    (hpv : ∀ n : Nat, AI.tituloPorVencer n ≠ target)
    (hrg : ∀ n : Nat, AI.tituloRiesgo n ≠ target)
    (hop : AI.tituloOptimizacion ≠ target)
    (hcn : AI.tituloConsistencia ≠ target) :
    List.Perm
      ((AI.generate_recommendations cuentas now).filter
        (fun rc => rc.titulo == target))
      (((AI.analisis_por_tipo cuentas).flatMap fun q =>
          AI.recs_tendencia q.1 q.2).filter (fun rc => rc.titulo == target)) := by
  have hemp : cuentas.isEmpty = false := by
    cases cuentas with
    | nil => exact absurd rfl hne
    | cons a l => rfl
  unfold AI.generate_recommendations AI.sortRecs
  rw [hemp]
  simp only [Bool.false_eq_true, if_false]
  refine (List.Perm.filter _ (stableSort_perm AI.recKeyGe _)).trans ?_
  rw [List.filter_append, List.filter_append, List.filter_append,
    List.filter_append, filter_rec_por_vencer cuentas now target hpv,
    filter_rec_riesgo_corte cuentas now target hrg,
    filter_rec_optimizacion cuentas target hop,
    filter_rec_consistencia cuentas target hcn]
  simp

lemma length_sortByEmision (l : List GenB.CuentaServicio) :
    (AI.sortByEmision l).length = l.length :=
  (stableSort_perm _ l).length_eq

lemma pc_analisisTipo_eq (bucket : List GenB.CuentaServicio) (m0 : Rat)
    (hlen : 3 ≤ bucket.length) (hm0 : 0 < m0)
    (hh : ((AI.sortByEmision bucket).map fun c => c.monto).headD 0 = m0)
    (hl : ((AI.sortByEmision bucket).map fun c => c.monto).getLastD 0 =
      13 / 10 * m0) :
    (AI.analisisTipo bucket).porcentaje_cambio = 30 := by
  have hlen2 : 1 < ((AI.sortByEmision bucket).map fun c => c.monto).length := by
    rw [List.length_map, length_sortByEmision]
    omega
  have hne : m0 ≠ 0 := ne_of_gt hm0
  simp only [AI.analisisTipo]
  rw [if_pos hlen2, hh, hl, if_pos hm0]
  field_simp
  ring

lemma pc_analisisTipo_le (bucket : List GenB.CuentaServicio) (m0 : Rat)
    (hlen : 3 ≤ bucket.length) (hm0 : 0 < m0)
    (hh : ((AI.sortByEmision bucket).map fun c => c.monto).headD 0 = m0)
    (hl : ((AI.sortByEmision bucket).map fun c => c.monto).getLastD 0 ≤
      7 / 10 * m0) :
    (AI.analisisTipo bucket).porcentaje_cambio ≤ -30 := by
  have hlen2 : 1 < ((AI.sortByEmision bucket).map fun c => c.monto).length := by
    rw [List.length_map, length_sortByEmision]
    omega
  simp only [AI.analisisTipo]
  rw [if_pos hlen2, hh, if_pos hm0, div_mul_eq_mul_div, div_le_iff₀ hm0]
  linarith

lemma nonNil_eq_some {γ : Type} (l : List γ) (h : l ≠ []) :
    nonNil l = some l := by
  cases l with
  | nil => exact absurd rfl h
  | cons a t => rfl

lemma filter_flatMap_unique_some {κ β : Type} [DecidableEq κ]
    (A : List (κ × β)) (f : κ → β → List AI.Recommendation)
    (p : AI.Recommendation → Bool) (label : κ) (b : β)
    (hnd : (A.map Prod.fst).Nodup)
    (hz : ∀ q ∈ A, q.1 ≠ label → (f q.1 q.2).filter p = [])
    (hlk : listLookup label A = some b) :
    (A.flatMap fun q => f q.1 q.2).filter p = (f label b).filter p := by
  rw [filter_flatMap_unique A f p label hnd hz, hlk]

/-- Claim C8: over any account collection, for a service type whose
(chronologically sorted) series has at least 3 accounts and a positive
first amount:  if the last amount is 30 percent above the first, the
generated recommendations contain exactly one recommendation titled as
the significant-increase alert for that type, and it is an alert of
high priority (30 exceeds both the +15 alert threshold and the 25
high-priority threshold); if instead the series drops by 30 percent or
more, there is no increase alert for that type and exactly one saving
recommendation for it instead. -/
theorem claim_C8_recommendation_thresholds :
    (∀ (cuentas : List GenB.CuentaServicio) (now : PyDateTime)
        (tipo : GenB.TipoServicio) (m0 : Rat),
      3 ≤ (cuentas.filter fun c =>
          decide (c.tipo_servicio.value = tipo.value)).length →
      0 < m0 →
      ((AI.sortByEmision (cuentas.filter fun c =>
          decide (c.tipo_servicio.value = tipo.value))).map
        fun c => c.monto).headD 0 = m0 →
      ((AI.sortByEmision (cuentas.filter fun c =>
          decide (c.tipo_servicio.value = tipo.value))).map
        fun c => c.monto).getLastD 0 = 13 / 10 * m0 →
      ∃ r, (AI.generate_recommendations cuentas now).filter
          (fun rc => rc.titulo == AI.tituloIncremento tipo.value) = [r] ∧
        r.tipo = "alerta" ∧ r.prioridad = "alta") ∧
    (∀ (cuentas : List GenB.CuentaServicio) (now : PyDateTime)
        (tipo : GenB.TipoServicio) (m0 : Rat),
      3 ≤ (cuentas.filter fun c =>
          decide (c.tipo_servicio.value = tipo.value)).length →
      0 < m0 →
      ((AI.sortByEmision (cuentas.filter fun c =>
          decide (c.tipo_servicio.value = tipo.value))).map
        fun c => c.monto).headD 0 = m0 →
      ((AI.sortByEmision (cuentas.filter fun c =>
          decide (c.tipo_servicio.value = tipo.value))).map
        fun c => c.monto).getLastD 0 ≤ 7 / 10 * m0 →
      ((AI.generate_recommendations cuentas now).filter
          (fun rc => rc.titulo == AI.tituloIncremento tipo.value) = []) ∧
      ∃ r, (AI.generate_recommendations cuentas now).filter
          (fun rc => rc.titulo == AI.tituloAhorro tipo.value) = [r] ∧
        r.tipo = "ahorro" ∧ r.prioridad = "baja") := by
  have main : ∀ (cuentas : List GenB.CuentaServicio)
      (tipo : GenB.TipoServicio),
      3 ≤ (cuentas.filter fun c =>
          decide (c.tipo_servicio.value = tipo.value)).length →
      cuentas ≠ [] ∧
      ((AI.analisis_por_tipo cuentas).map Prod.fst).Nodup ∧
      listLookup tipo.value (AI.analisis_por_tipo cuentas) =
        some (AI.analisisTipo (cuentas.filter fun c =>
          decide (c.tipo_servicio.value = tipo.value))) := by
    intro cuentas tipo h3
    have hbne : (cuentas.filter fun c =>
        decide (c.tipo_servicio.value = tipo.value)) ≠ [] := by
      intro h
      rw [h] at h3
      simp at h3
    refine ⟨?_, ?_, ?_⟩
    · intro h
      subst h
      simp at h3
    · have h1 := nodup_keys_groupByKey
        (fun c : GenB.CuentaServicio => c.tipo_servicio.value) cuentas
      have h2 := keys_filterMap_if
        (AI.groupByKey (fun c : GenB.CuentaServicio => c.tipo_servicio.value)
          cuentas)
        (fun b : List GenB.CuentaServicio => b.length < 3) AI.analisisTipo
      exact h1.sublist h2
    · have hlkG : listLookup tipo.value
          (AI.groupByKey (fun c : GenB.CuentaServicio => c.tipo_servicio.value)
            cuentas) =
          some (cuentas.filter fun c =>
            decide (c.tipo_servicio.value = tipo.value)) := by
        rw [listLookup_groupByKey]
        exact nonNil_eq_some _ hbne
      exact listLookup_filterMap_if _
        (fun b : List GenB.CuentaServicio => b.length < 3)
        AI.analisisTipo _ _ hlkG (by omega)
  constructor
  · intro cuentas now tipo m0 h3 hm0 hh hl
    obtain ⟨hne, hnodA, hlkA⟩ := main cuentas tipo h3
    obtain ⟨r, hr, hrt, hrp⟩ := filter_recs_tendencia_rise tipo.value
      (AI.analisisTipo (cuentas.filter fun c =>
        decide (c.tipo_servicio.value = tipo.value)))
      (pc_analisisTipo_eq _ m0 h3 hm0 hh hl)
    refine ⟨r, ?_, hrt, hrp⟩
    have hperm := filter_generate_perm cuentas now
      (AI.tituloIncremento tipo.value) hne
      (fun n => titulo_ne_of_heads (head_tituloPorVencer n)
        (head_tituloIncremento _) (by decide))
      (fun n => titulo_ne_of_heads (head_tituloRiesgo n)
        (head_tituloIncremento _) (by decide))
      (titulo_ne_of_heads head_tituloOptimizacion
        (head_tituloIncremento _) (by decide))
      (titulo_ne_of_heads head_tituloConsistencia
        (head_tituloIncremento _) (by decide))
    have hflat := filter_flatMap_unique_some (AI.analisis_por_tipo cuentas)
      AI.recs_tendencia _ tipo.value _ hnodA
      (fun q hq hqne => (filter_recs_tendencia_other q.1 tipo.value q.2 hqne).1)
      hlkA
    rw [hflat, hr] at hperm
    exact List.perm_singleton.mp hperm
  · intro cuentas now tipo m0 h3 hm0 hh hl
    obtain ⟨hne, hnodA, hlkA⟩ := main cuentas tipo h3
    have hpc := pc_analisisTipo_le _ m0 h3 hm0 hh hl
    obtain ⟨hdropInc, r, hr, hrt, hrp⟩ := filter_recs_tendencia_drop tipo.value
      (AI.analisisTipo (cuentas.filter fun c =>
        decide (c.tipo_servicio.value = tipo.value))) hpc
    constructor
    · have hperm := filter_generate_perm cuentas now
        (AI.tituloIncremento tipo.value) hne
        (fun n => titulo_ne_of_heads (head_tituloPorVencer n)
          (head_tituloIncremento _) (by decide))
        (fun n => titulo_ne_of_heads (head_tituloRiesgo n)
          (head_tituloIncremento _) (by decide))
        (titulo_ne_of_heads head_tituloOptimizacion
          (head_tituloIncremento _) (by decide))
        (titulo_ne_of_heads head_tituloConsistencia
          (head_tituloIncremento _) (by decide))
      have hflat := filter_flatMap_unique_some (AI.analisis_por_tipo cuentas)
        AI.recs_tendencia _ tipo.value _ hnodA
        (fun q hq hqne =>
          (filter_recs_tendencia_other q.1 tipo.value q.2 hqne).1)
        hlkA
      rw [hflat, hdropInc] at hperm
      exact hperm.eq_nil
    · refine ⟨r, ?_, hrt, hrp⟩
      have hperm := filter_generate_perm cuentas now
        (AI.tituloAhorro tipo.value) hne
        (fun n => titulo_ne_of_heads (head_tituloPorVencer n)
          (head_tituloAhorro _) (by decide))
        (fun n => titulo_ne_of_heads (head_tituloRiesgo n)
          (head_tituloAhorro _) (by decide))
        (titulo_ne_of_heads head_tituloOptimizacion
          (head_tituloAhorro _) (by decide))
        (titulo_ne_of_heads head_tituloConsistencia
          (head_tituloAhorro _) (by decide))
      have hflat := filter_flatMap_unique_some (AI.analisis_por_tipo cuentas)
        AI.recs_tendencia _ tipo.value _ hnodA
        (fun q hq hqne =>
          (filter_recs_tendencia_other q.1 tipo.value q.2 hqne).2)
        hlkA
      rw [hflat, hr] at hperm
      exact List.perm_singleton.mp hperm

/-- A synthetic three-account electricity series rising 30 percent
first-to-last (claim C8 witness); all accounts paid so no due-soon or
cutoff alert fires. -/
def cuentasC8rise : List GenB.CuentaServicio :=
  [{ id := "luz-r1", tipo_servicio := .LUZ, fecha_emision := ⟨0, 1⟩,
     fecha_vencimiento := ⟨1728000000000, 1⟩, monto := 1000,
     descripcion := "Luz enero", pagado := true,
     fecha_pago := some ⟨864000000000, 1⟩ },
   { id := "luz-r2", tipo_servicio := .LUZ, fecha_emision := ⟨2592000000000, 2⟩,
     fecha_vencimiento := ⟨4320000000000, 2⟩, monto := 1100,
     descripcion := "Luz febrero", pagado := true,
     fecha_pago := some ⟨3456000000000, 2⟩ },
   { id := "luz-r3", tipo_servicio := .LUZ, fecha_emision := ⟨5184000000000, 3⟩,
     fecha_vencimiento := ⟨6912000000000, 3⟩, monto := 1300,
     descripcion := "Luz marzo", pagado := true,
     fecha_pago := some ⟨6048000000000, 3⟩ }]

/-- A synthetic three-account electricity series dropping 30 percent
first-to-last (claim C8 witness). -/
def cuentasC8drop : List GenB.CuentaServicio :=
  [{ id := "luz-d1", tipo_servicio := .LUZ, fecha_emision := ⟨0, 1⟩,
     fecha_vencimiento := ⟨1728000000000, 1⟩, monto := 1000,
     descripcion := "Luz enero", pagado := true,
     fecha_pago := some ⟨864000000000, 1⟩ },
   { id := "luz-d2", tipo_servicio := .LUZ, fecha_emision := ⟨2592000000000, 2⟩,
     fecha_vencimiento := ⟨4320000000000, 2⟩, monto := 900,
     descripcion := "Luz febrero", pagado := true,
     fecha_pago := some ⟨3456000000000, 2⟩ },
   { id := "luz-d3", tipo_servicio := .LUZ, fecha_emision := ⟨5184000000000, 3⟩,
     fecha_vencimiento := ⟨6912000000000, 3⟩, monto := 700,
     descripcion := "Luz marzo", pagado := true,
     fecha_pago := some ⟨6048000000000, 3⟩ }]

/-- The evaluation instant of the claim C8 witness (day 100). -/
def nowC8 : PyDateTime := ⟨8640000000000, 4⟩

/-- Witness for claim C8: the rising synthetic series yields exactly
one high-priority increase alert for electricity; the dropping series
yields no increase alert and exactly one saving note instead. -/
theorem claim_C8_witness :
    (∃ r, (AI.generate_recommendations cuentasC8rise nowC8).filter
        (fun rc => rc.titulo ==
          AI.tituloIncremento GenB.TipoServicio.LUZ.value) = [r] ∧
      r.tipo = "alerta" ∧ r.prioridad = "alta") ∧
    (((AI.generate_recommendations cuentasC8drop nowC8).filter
        (fun rc => rc.titulo ==
          AI.tituloIncremento GenB.TipoServicio.LUZ.value) = []) ∧
     ∃ r, (AI.generate_recommendations cuentasC8drop nowC8).filter
        (fun rc => rc.titulo ==
          AI.tituloAhorro GenB.TipoServicio.LUZ.value) = [r] ∧
      r.tipo = "ahorro" ∧ r.prioridad = "baja") :=
  ⟨claim_C8_recommendation_thresholds.1 cuentasC8rise nowC8 .LUZ 1000
    (by decide) (by norm_num) (by decide)
    (by
      have h : ((AI.sortByEmision (cuentasC8rise.filter fun c =>
          decide (c.tipo_servicio.value = GenB.TipoServicio.LUZ.value))).map
            fun c => c.monto).getLastD 0 = 1300 := by decide
      rw [h]
      norm_num),
   claim_C8_recommendation_thresholds.2 cuentasC8drop nowC8 .LUZ 1000
    (by decide) (by norm_num) (by decide)
    (by
      have h : ((AI.sortByEmision (cuentasC8drop.filter fun c =>
          decide (c.tipo_servicio.value = GenB.TipoServicio.LUZ.value))).map
            fun c => c.monto).getLastD 0 = 700 := by decide
      rw [h]
      norm_num)⟩
